import Mathlib

/-!
Verification of the Claim-Extractor rule engines.

This file is a shallow embedding, in Lean 4, of the scoring code of the
Claim-Extractor repository:

* the fraud-detection engine (src/server/fraud-engine.ts),
* the underwriting engine (src/server/underwriting-engine.ts),
* the user-defined validation-rule engine (src/unnamed/part_005), and
* the two bulk-analysis route handlers (src/server/routes.ts).

Modelling conventions:

* JavaScript numbers are modelled as exact rationals (ℚ).  The engines only
  add, multiply, divide and compare values of moderate size, so the
  idealisation away from binary floating point does not change any of the
  behaviour the theorems below are about.
* `Math.round` is "round half toward +∞", i.e. `⌊q + 1/2⌋`.
* Optional input fields are `Option` values; JavaScript truthiness tests
  (`!x`) on them are `strTruthy` / `numTruthy` below (undefined, the empty
  string and the number 0 are falsy).
* `new Date(s)` is modelled at day granularity for ISO `YYYY-MM-DD` strings
  (the format the application produces); any other string behaves like an
  Invalid Date: every order comparison is false and a day difference never
  equals 0, exactly as NaN behaves in the source.
* Presentation-only output (detail strings, summaries, generated ids and
  timestamps) is dropped; no claim below mentions it.
-/

/-- JS Math.round: round half toward positive infinity. -/
def jsRound (q : ℚ) : ℤ := Int.floor (q + 1/2)

/-- JS truthiness of an optional string: undefined and "" are falsy. -/
def strTruthy : Option String → Bool
  | none => false
  | some s => !(s == "")

/-- JS truthiness of an optional number: undefined and 0 are falsy. -/
def numTruthy : Option ℚ → Bool
  | none => false
  | some q => !(q == 0)

/-- Unwraps an optional string, defaulting to "" as `x?.y || ""` does. -/
def strVal (o : Option String) : String := o.getD ""

/-- JS toLowerCase, character by character (kernel-reducible, unlike
String.map). -/
def jsToLower (s : String) : String := ⟨s.data.map Char.toLower⟩

/-- Whitespace recognised by the trim model. -/
def isWsChar (c : Char) : Bool :=
  c == ' ' || c == '\t' || c == '\n' || c == '\r'

/-- JS String.prototype.trim (kernel-reducible). -/
def jsTrim (s : String) : String :=
  ⟨((s.data.dropWhile isWsChar).reverse.dropWhile isWsChar).reverse⟩

/-- Tests whether the second list of characters occurs inside the first,
modelling JS String.prototype.includes. -/
def charsContain (hay ned : List Char) : Bool :=
  match hay with
  | [] => ned.isEmpty
  | _ :: t => ned.isPrefixOf hay || charsContain t ned

/-- JS s.includes(t). -/
def jsIncludes (hay ned : String) : Bool := charsContain hay.data ned.data

/-- JS % on numbers: remainder of division truncated toward zero. -/
def jsMod (a b : ℚ) : ℚ :=
  let q := a / b
  a - b * (if 0 ≤ q then ((⌊q⌋ : ℤ) : ℚ) else ((⌈q⌉ : ℤ) : ℚ))

/-- Value of a decimal digit character. -/
def digitVal (c : Char) : ℕ := c.toNat - 48

/-- Days since 1970-01-01 of a civil date (standard era-based formula); only
used on years ≥ 1, where every integer-division convention agrees. -/
def daysFromCivil (y m d : ℤ) : ℤ :=
  let yy := if m ≤ 2 then y - 1 else y
  let era := yy / 400
  let yoe := yy - era * 400
  let mp := (m + 9) % 12
  let doy := (153 * mp + 2) / 5 + d - 1
  let doe := yoe * 365 + yoe / 4 - yoe / 100 + doy
  era * 146097 + doe - 719468

/-- Model of new Date(s).getTime() at day granularity: an ISO `YYYY-MM-DD`
string parses to its day number, anything else to `none` (Invalid Date). -/
def parseDate (s : String) : Option ℤ :=
  match s.data with
  | [y1, y2, y3, y4, h1, m1, m2, h2, d1, d2] =>
    if y1.isDigit && y2.isDigit && y3.isDigit && y4.isDigit && h1 == '-' &&
       m1.isDigit && m2.isDigit && h2 == '-' && d1.isDigit && d2.isDigit then
      let y : ℤ := ((digitVal y1 * 1000 + digitVal y2 * 100 + digitVal y3 * 10 + digitVal y4 : ℕ) : ℤ)
      let m : ℤ := ((digitVal m1 * 10 + digitVal m2 : ℕ) : ℤ)
      let d : ℤ := ((digitVal d1 * 10 + digitVal d2 : ℕ) : ℤ)
      if 1 ≤ y ∧ 1 ≤ m ∧ m ≤ 12 ∧ 1 ≤ d ∧ d ≤ 31 then some (daysFromCivil y m d)
      else none
    else none
  | _ => none

/-- Parses an optional date string. -/
def optParse (o : Option String) : Option ℤ :=
  match o with
  | some s => parseDate s
  | none => none

/-- Compares two parse results as JS compares two Date values: a failed parse
is NaN, and every comparison against NaN is false. -/
def dateLt (a b : Option ℤ) : Bool :=
  match a, b with
  | some x, some y => decide (x < y)
  | _, _ => false

/-- Severity of a signal. -/
inductive Severity where
  | info
  | warning
  | critical
deriving DecidableEq, Repr

/-- Risk level of a fraud assessment. -/
inductive RiskLevel where
  | low
  | medium
  | high
deriving DecidableEq, Repr

/-- Result of one rule predicate: {triggered, confidence} (the detail string
of the source is presentation-only and dropped). -/
structure CheckResult where
  triggered : Bool
  confidence : ℚ
deriving DecidableEq, Repr

/-- Input record of the fraud engine (claimDataInputSchema, shared/schema.ts):
every field is optional. -/
structure ClaimData where
  claimantName : Option String := none
  policyNumber : Option String := none
  claimNumber : Option String := none
  claimDate : Option String := none
  claimAmount : Option ℚ := none
  incidentDate : Option String := none
  incidentDescription : Option String := none
  incidentLocation : Option String := none
  treatmentDate : Option String := none
  providerName : Option String := none
  providerNPI : Option String := none
  diagnosisCode : Option String := none
  claimantAddress : Option String := none
  claimantPhone : Option String := none
  claimantEmail : Option String := none
  vehicleInfo : Option String := none
  policyHolderName : Option String := none
  policyLimit : Option ℚ := none
  previousClaimsCount : Option ℚ := none
  daysSinceLastClaim : Option ℚ := none
deriving DecidableEq, Repr

/-- FR001 Identity Mismatch. -/
def fr001check (d : ClaimData) : CheckResult :=
  if !strTruthy d.claimantName || !strTruthy d.policyHolderName then ⟨false, 0⟩
  else
    let claimant := jsTrim (jsToLower (strVal d.claimantName))
    let holder := jsTrim (jsToLower (strVal d.policyHolderName))
    if claimant ≠ holder then ⟨true, 90⟩ else ⟨false, 0⟩

/-- FR002 Claim Exceeds Policy Limit. -/
def fr002check (d : ClaimData) : CheckResult :=
  if !numTruthy d.claimAmount || !numTruthy d.policyLimit then ⟨false, 0⟩
  else if d.claimAmount.getD 0 > d.policyLimit.getD 0 then ⟨true, 100⟩
  else ⟨false, 0⟩

/-- FR003 Suspicious Claim Frequency (`=== undefined` presence checks). -/
def fr003check (d : ClaimData) : CheckResult :=
  match d.previousClaimsCount, d.daysSinceLastClaim with
  | some p, some q => if p ≥ 3 ∧ q < 90 then ⟨true, 85⟩ else ⟨false, 0⟩
  | _, _ => ⟨false, 0⟩

/-- FR004 Date Sequence Anomaly. -/
def fr004check (d : ClaimData) : CheckResult :=
  if !strTruthy d.incidentDate then ⟨false, 0⟩
  else
    let i := optParse d.incidentDate
    if strTruthy d.treatmentDate && dateLt (optParse d.treatmentDate) i then ⟨true, 95⟩
    else if strTruthy d.claimDate && dateLt (optParse d.claimDate) i then ⟨true, 95⟩
    else ⟨false, 0⟩

/-- FR005 Unknown Provider. -/
def fr005check (d : ClaimData) : CheckResult :=
  if !strTruthy d.providerName then ⟨false, 0⟩
  else
    let suspiciousTerms := ["unknown", "unregistered", "private", "cash only", "n/a", "none"]
    let providerLower := jsToLower (strVal d.providerName)
    if suspiciousTerms.any (fun t => jsIncludes providerLower t) then ⟨true, 70⟩
    else ⟨false, 0⟩

/-- FR006 Missing Provider NPI: triggers when a provider name is present but
the NPI field is absent. -/
def fr006check (d : ClaimData) : CheckResult :=
  if strTruthy d.providerName && !strTruthy d.providerNPI then ⟨true, 60⟩
  else ⟨false, 0⟩

/-- FR007 High Claim Amount. -/
def fr007check (d : ClaimData) : CheckResult :=
  if !numTruthy d.claimAmount then ⟨false, 0⟩
  else if d.claimAmount.getD 0 > 50000 then ⟨true, 75⟩
  else ⟨false, 0⟩

/-- FR008 Same-Day Incident and Treatment (raw string equality). -/
def fr008check (d : ClaimData) : CheckResult :=
  if !strTruthy d.incidentDate || !strTruthy d.treatmentDate then ⟨false, 0⟩
  else if strVal d.incidentDate = strVal d.treatmentDate then ⟨true, 50⟩
  else ⟨false, 0⟩

/-- FR009 Vague Incident Description. -/
def fr009check (d : ClaimData) : CheckResult :=
  if !strTruthy d.incidentDescription then ⟨false, 0⟩
  else if (strVal d.incidentDescription).length < 20 then ⟨true, 60⟩
  else ⟨false, 0⟩

/-- FR010 Round Number Claim. -/
def fr010check (d : ClaimData) : CheckResult :=
  if !numTruthy d.claimAmount then ⟨false, 0⟩
  else
    let a := d.claimAmount.getD 0
    if a ≥ 1000 ∧ jsMod a 1000 = 0 then ⟨true, 45⟩ else ⟨false, 0⟩

/-- FR011 Missing Contact Information: triggers when at least two of phone,
email and address are absent. -/
def fr011check (d : ClaimData) : CheckResult :=
  let missing := (if strTruthy d.claimantPhone then 0 else 1)
    + (if strTruthy d.claimantEmail then 0 else 1)
    + (if strTruthy d.claimantAddress then 0 else 1)
  if missing ≥ 2 then ⟨true, 55⟩ else ⟨false, 0⟩

/-- FR012 Rapid Claim Submission: the day difference between claim date and
incident date is 0 (a failed parse is NaN and never equal to 0). -/
def fr012check (d : ClaimData) : CheckResult :=
  if !strTruthy d.incidentDate || !strTruthy d.claimDate then ⟨false, 0⟩
  else
    match optParse d.incidentDate, optParse d.claimDate with
    | some i, some c => if c - i = 0 then ⟨true, 40⟩ else ⟨false, 0⟩
    | _, _ => ⟨false, 0⟩

/-- One row of the fraud rule table. -/
structure FraudRule where
  code : String
  severity : Severity
  baseScore : ℚ
  impactedFields : List String
  check : ClaimData → CheckResult

/-- The fraud rule table of src/server/fraud-engine.ts, in source order. -/
def fraudRules : List FraudRule :=
  [ ⟨"FR001", .critical, 25, ["claimantName", "policyHolderName"], fr001check⟩,
    ⟨"FR002", .critical, 30, ["claimAmount", "policyLimit"], fr002check⟩,
    ⟨"FR003", .warning, 20, ["previousClaimsCount", "daysSinceLastClaim"], fr003check⟩,
    ⟨"FR004", .critical, 35, ["incidentDate", "treatmentDate", "claimDate"], fr004check⟩,
    ⟨"FR005", .warning, 15, ["providerName"], fr005check⟩,
    ⟨"FR006", .info, 10, ["providerNPI"], fr006check⟩,
    ⟨"FR007", .warning, 15, ["claimAmount"], fr007check⟩,
    ⟨"FR008", .info, 8, ["incidentDate", "treatmentDate"], fr008check⟩,
    ⟨"FR009", .info, 5, ["incidentDescription"], fr009check⟩,
    ⟨"FR010", .info, 5, ["claimAmount"], fr010check⟩,
    ⟨"FR011", .info, 8, ["claimantPhone", "claimantEmail", "claimantAddress"], fr011check⟩,
    ⟨"FR012", .info, 5, ["incidentDate", "claimDate"], fr012check⟩ ]

/-- Fraud tier thresholds (calculateRiskLevel). -/
def calculateRiskLevel (score : ℤ) : RiskLevel :=
  if score ≥ 60 then .high
  else if score ≥ 30 then .medium
  else .low

/-- Score contribution of one rule on one input: round(baseScore * confidence
/ 100) when the rule triggers, 0 otherwise. -/
def ruleScore (r : FraudRule) (d : ClaimData) : ℤ :=
  let res := r.check d
  if res.triggered then jsRound (r.baseScore * (res.confidence / 100)) else 0

/-- Total fraud score accumulated over the rule table. -/
def totalScore (d : ClaimData) : ℤ := (fraudRules.map (fun r => ruleScore r d)).sum

/-- Fraud assessment (ids, timestamps, signal list and summary prose dropped). -/
structure FraudAssessment where
  overallScore : ℤ
  riskLevel : RiskLevel
deriving DecidableEq, Repr

/-- Embedding of analyzeFraud: cap the accumulated score at 100, then tier. -/
def analyzeFraud (d : ClaimData) : FraudAssessment :=
  let overallScore := min 100 (totalScore d)
  { overallScore := overallScore
    riskLevel := calculateRiskLevel overallScore }

/-- Applicant type of an underwriting application. -/
inductive ApplicantType where
  | individual
  | company
deriving DecidableEq, Repr

/-- Risk tier of an underwriting assessment. -/
inductive RiskTier where
  | preferred
  | standard
  | substandard
  | decline
deriving DecidableEq, Repr

/-- Dimension a rule feeds (risk or profitability). -/
inductive Dimension where
  | risk
  | profitability
deriving DecidableEq, Repr

/-- Smoking status enum of the individual applicant schema. -/
inductive SmokingStatus where
  | never
  | former
  | current
deriving DecidableEq, Repr

/-- Individual applicant input (individualApplicantInputSchema): fullName,
requestedCoverageAmount and coverageType are required, the rest optional. -/
structure IndividualApp where
  fullName : String := ""
  dateOfBirth : Option String := none
  age : Option ℚ := none
  gender : Option String := none
  occupation : Option String := none
  annualIncome : Option ℚ := none
  netWorth : Option ℚ := none
  creditScore : Option ℚ := none
  smokingStatus : Option SmokingStatus := none
  hasChronicConditions : Option Bool := none
  chronicConditions : Option (List String) := none
  bmi : Option ℚ := none
  hazardousHobbies : Option (List String) := none
  previousClaimsCount : Option ℚ := none
  previousClaimsAmount : Option ℚ := none
  yearsWithPriorCoverage : Option ℚ := none
  requestedCoverageAmount : ℚ := 0
  coverageType : String := ""
  policyTerm : Option ℚ := none
deriving DecidableEq, Repr

/-- Company applicant input (companyApplicantInputSchema). -/
structure CompanyApp where
  companyName : String := ""
  industry : String := ""
  industryCode : Option String := none
  yearsInBusiness : Option ℚ := none
  employeeCount : Option ℚ := none
  annualRevenue : Option ℚ := none
  annualPayroll : Option ℚ := none
  netWorth : Option ℚ := none
  previousClaimsCount : Option ℚ := none
  previousClaimsAmount : Option ℚ := none
  priorLossRatio : Option ℚ := none
  oshaIncidents : Option ℚ := none
  hasSafetyCertifications : Option Bool := none
  safetyCertifications : Option (List String) := none
  hasRiskManagementProgram : Option Bool := none
  geographicConcentration : Option ℚ := none
  liquidityRatio : Option ℚ := none
  requestedCoverageAmount : ℚ := 0
  coverageType : String := ""
  policyTerm : Option ℚ := none
deriving DecidableEq, Repr

/-- Underwriting application input: the discriminated union on applicantType. -/
inductive UWApp where
  | individual (d : IndividualApp)
  | company (d : CompanyApp)
deriving DecidableEq, Repr

/-- Discriminant of an application. -/
def appType : UWApp → ApplicantType
  | .individual _ => .individual
  | .company _ => .company

/-- JS truthiness of an optional boolean: only `some true` is truthy. -/
def boolTruthy : Option Bool → Bool
  | some b => b
  | none => false

/-- JS truthiness of an optional array combined with a length test, as in
`data.xs && data.xs.length > 0` (a present empty array is truthy but fails
the length test). -/
def listNonempty : Option (List String) → Bool
  | some l => !l.isEmpty
  | none => false

/-- UW001 Advanced Age Risk. -/
def uw001check : UWApp → CheckResult
  | .company _ => ⟨false, 0⟩
  | .individual d =>
    if !numTruthy d.age then ⟨false, 0⟩
    else if d.age.getD 0 ≥ 60 then ⟨true, 90⟩
    else if d.age.getD 0 ≥ 50 then ⟨true, 70⟩
    else ⟨false, 0⟩

/-- UW002 Current Smoker. -/
def uw002check : UWApp → CheckResult
  | .company _ => ⟨false, 0⟩
  | .individual d =>
    if d.smokingStatus = some .current then ⟨true, 100⟩
    else if d.smokingStatus = some .former then ⟨true, 50⟩
    else ⟨false, 0⟩

/-- UW003 Pre-existing Health Conditions. -/
def uw003check : UWApp → CheckResult
  | .company _ => ⟨false, 0⟩
  | .individual d =>
    if boolTruthy d.hasChronicConditions && listNonempty d.chronicConditions then ⟨true, 85⟩
    else ⟨false, 0⟩

/-- UW004 High BMI. -/
def uw004check : UWApp → CheckResult
  | .company _ => ⟨false, 0⟩
  | .individual d =>
    if !numTruthy d.bmi then ⟨false, 0⟩
    else if d.bmi.getD 0 ≥ 35 then ⟨true, 90⟩
    else if d.bmi.getD 0 ≥ 30 then ⟨true, 75⟩
    else ⟨false, 0⟩

/-- UW005 Hazardous Occupation. -/
def uw005check : UWApp → CheckResult
  | .company _ => ⟨false, 0⟩
  | .individual d =>
    if !strTruthy d.occupation then ⟨false, 0⟩
    else
      let hazardous := ["Construction Worker", "Electrician", "Firefighter", "Police Officer",
        "Pilot", "Miner", "Logger", "Roofer"]
      if hazardous.any (fun o => jsIncludes (jsToLower (strVal d.occupation)) (jsToLower o)) then
        ⟨true, 85⟩
      else ⟨false, 0⟩

/-- UW006 Hazardous Hobbies. -/
def uw006check : UWApp → CheckResult
  | .company _ => ⟨false, 0⟩
  | .individual d =>
    if listNonempty d.hazardousHobbies then ⟨true, 80⟩ else ⟨false, 0⟩

/-- UW007 Poor Credit Score. -/
def uw007check : UWApp → CheckResult
  | .company _ => ⟨false, 0⟩
  | .individual d =>
    if !numTruthy d.creditScore then ⟨false, 0⟩
    else if d.creditScore.getD 0 < 580 then ⟨true, 90⟩
    else if d.creditScore.getD 0 < 670 then ⟨true, 65⟩
    else ⟨false, 0⟩

/-- UW008 Excessive Coverage Request. -/
def uw008check : UWApp → CheckResult
  | .company _ => ⟨false, 0⟩
  | .individual d =>
    if !numTruthy d.annualIncome then ⟨false, 0⟩
    else
      let ratio := d.requestedCoverageAmount / d.annualIncome.getD 0
      if ratio > 15 then ⟨true, 95⟩
      else if ratio > 10 then ⟨true, 70⟩
      else ⟨false, 0⟩

/-- UW009 Frequent Prior Claims (individual). -/
def uw009check : UWApp → CheckResult
  | .company _ => ⟨false, 0⟩
  | .individual d =>
    if numTruthy d.previousClaimsCount && d.previousClaimsCount.getD 0 ≥ 3 then ⟨true, 85⟩
    else ⟨false, 0⟩

/-- UW010 No Prior Coverage (`=== 0` presence-and-value check). -/
def uw010check : UWApp → CheckResult
  | .company _ => ⟨false, 0⟩
  | .individual d =>
    if d.yearsWithPriorCoverage = some 0 then ⟨true, 70⟩ else ⟨false, 0⟩

/-- UW011 Excellent Credit (discount). -/
def uw011check : UWApp → CheckResult
  | .company _ => ⟨false, 0⟩
  | .individual d =>
    if !numTruthy d.creditScore then ⟨false, 0⟩
    else if d.creditScore.getD 0 ≥ 750 then ⟨true, 90⟩
    else ⟨false, 0⟩

/-- UW012 Healthy Lifestyle (discount). -/
def uw012check : UWApp → CheckResult
  | .company _ => ⟨false, 0⟩
  | .individual d =>
    let isNonSmoker := d.smokingStatus = some .never
    let hasHealthyBMI := numTruthy d.bmi ∧ d.bmi.getD 0 ≥ 37/2 ∧ d.bmi.getD 0 ≤ 25
    if isNonSmoker ∧ hasHealthyBMI then ⟨true, 85⟩ else ⟨false, 0⟩

/-- UW101 High-Risk Industry. -/
def uw101check : UWApp → CheckResult
  | .individual _ => ⟨false, 0⟩
  | .company d =>
    let highRisk := ["Construction", "Mining", "Oil & Gas", "Manufacturing",
      "Transportation", "Agriculture"]
    if highRisk.contains d.industry then ⟨true, 95⟩ else ⟨false, 0⟩

/-- UW102 New Business (`!== undefined` presence check). -/
def uw102check : UWApp → CheckResult
  | .individual _ => ⟨false, 0⟩
  | .company d =>
    match d.yearsInBusiness with
    | some y => if y < 3 then ⟨true, 85⟩ else ⟨false, 0⟩
    | none => ⟨false, 0⟩

/-- UW103 Poor Loss Ratio History (`=== undefined` presence check). -/
def uw103check : UWApp → CheckResult
  | .individual _ => ⟨false, 0⟩
  | .company d =>
    match d.priorLossRatio with
    | some r =>
      if r > 75 then ⟨true, 95⟩
      else if r > 60 then ⟨true, 75⟩
      else ⟨false, 0⟩
    | none => ⟨false, 0⟩

/-- UW104 OSHA Incidents. -/
def uw104check : UWApp → CheckResult
  | .individual _ => ⟨false, 0⟩
  | .company d =>
    if numTruthy d.oshaIncidents && d.oshaIncidents.getD 0 ≥ 3 then ⟨true, 95⟩
    else if numTruthy d.oshaIncidents && d.oshaIncidents.getD 0 ≥ 1 then ⟨true, 70⟩
    else ⟨false, 0⟩

/-- UW105 High Geographic Concentration (`=== undefined` presence check). -/
def uw105check : UWApp → CheckResult
  | .individual _ => ⟨false, 0⟩
  | .company d =>
    match d.geographicConcentration with
    | some g => if g > 80 then ⟨true, 85⟩ else ⟨false, 0⟩
    | none => ⟨false, 0⟩

/-- UW106 Low Liquidity (`=== undefined` presence check). -/
def uw106check : UWApp → CheckResult
  | .individual _ => ⟨false, 0⟩
  | .company d =>
    match d.liquidityRatio with
    | some r =>
      if r < 1 then ⟨true, 90⟩
      else if r < 3/2 then ⟨true, 65⟩
      else ⟨false, 0⟩
    | none => ⟨false, 0⟩

/-- UW107 Large Workforce Risk. -/
def uw107check : UWApp → CheckResult
  | .individual _ => ⟨false, 0⟩
  | .company d =>
    if !numTruthy d.employeeCount then ⟨false, 0⟩
    else if d.employeeCount.getD 0 > 200 then ⟨true, 80⟩
    else ⟨false, 0⟩

/-- UW108 Frequent Prior Claims (company). -/
def uw108check : UWApp → CheckResult
  | .individual _ => ⟨false, 0⟩
  | .company d =>
    if numTruthy d.previousClaimsCount && d.previousClaimsCount.getD 0 ≥ 5 then ⟨true, 90⟩
    else if numTruthy d.previousClaimsCount && d.previousClaimsCount.getD 0 ≥ 3 then ⟨true, 70⟩
    else ⟨false, 0⟩

/-- UW109 Safety Certifications (discount). -/
def uw109check : UWApp → CheckResult
  | .individual _ => ⟨false, 0⟩
  | .company d =>
    if boolTruthy d.hasSafetyCertifications && listNonempty d.safetyCertifications then
      ⟨true, 90⟩
    else ⟨false, 0⟩

/-- UW110 Risk Management Program (discount). -/
def uw110check : UWApp → CheckResult
  | .individual _ => ⟨false, 0⟩
  | .company d =>
    if boolTruthy d.hasRiskManagementProgram then ⟨true, 85⟩ else ⟨false, 0⟩

/-- UW111 Established Business (discount). -/
def uw111check : UWApp → CheckResult
  | .individual _ => ⟨false, 0⟩
  | .company d =>
    if numTruthy d.yearsInBusiness && d.yearsInBusiness.getD 0 ≥ 10 then ⟨true, 85⟩
    else ⟨false, 0⟩

/-- UW112 Low-Risk Industry (discount). -/
def uw112check : UWApp → CheckResult
  | .individual _ => ⟨false, 0⟩
  | .company d =>
    let lowRisk := ["Technology", "Professional Services", "Finance", "Education",
      "Telecommunications"]
    if lowRisk.contains d.industry then ⟨true, 90⟩ else ⟨false, 0⟩

/-- One row of the underwriting rule table. -/
structure UWRule where
  code : String
  severity : Severity
  dimension : Dimension
  basePremiumImpact : ℚ
  applicantTypes : List ApplicantType
  impactedFields : List String
  check : UWApp → CheckResult

/-- The underwriting rule table of src/server/underwriting-engine.ts, in
source order. -/
def underwritingRules : List UWRule :=
  [ ⟨"UW001", .warning, .risk, 15, [.individual], ["age"], uw001check⟩,
    ⟨"UW002", .critical, .risk, 25, [.individual], ["smokingStatus"], uw002check⟩,
    ⟨"UW003", .warning, .risk, 20, [.individual], ["hasChronicConditions", "chronicConditions"], uw003check⟩,
    ⟨"UW004", .info, .risk, 10, [.individual], ["bmi"], uw004check⟩,
    ⟨"UW005", .warning, .risk, 15, [.individual], ["occupation"], uw005check⟩,
    ⟨"UW006", .warning, .risk, 12, [.individual], ["hazardousHobbies"], uw006check⟩,
    ⟨"UW007", .info, .profitability, 10, [.individual], ["creditScore"], uw007check⟩,
    ⟨"UW008", .critical, .profitability, 20, [.individual], ["requestedCoverageAmount", "annualIncome"], uw008check⟩,
    ⟨"UW009", .warning, .risk, 18, [.individual], ["previousClaimsCount", "previousClaimsAmount"], uw009check⟩,
    ⟨"UW010", .info, .profitability, 8, [.individual], ["yearsWithPriorCoverage"], uw010check⟩,
    ⟨"UW011", .info, .profitability, -8, [.individual], ["creditScore"], uw011check⟩,
    ⟨"UW012", .info, .risk, -10, [.individual], ["smokingStatus", "bmi"], uw012check⟩,
    ⟨"UW101", .critical, .risk, 25, [.company], ["industry"], uw101check⟩,
    ⟨"UW102", .warning, .profitability, 15, [.company], ["yearsInBusiness"], uw102check⟩,
    ⟨"UW103", .critical, .profitability, 30, [.company], ["priorLossRatio"], uw103check⟩,
    ⟨"UW104", .critical, .risk, 20, [.company], ["oshaIncidents"], uw104check⟩,
    ⟨"UW105", .warning, .risk, 12, [.company], ["geographicConcentration"], uw105check⟩,
    ⟨"UW106", .warning, .profitability, 10, [.company], ["liquidityRatio"], uw106check⟩,
    ⟨"UW107", .info, .risk, 8, [.company], ["employeeCount"], uw107check⟩,
    ⟨"UW108", .warning, .profitability, 18, [.company], ["previousClaimsCount", "previousClaimsAmount"], uw108check⟩,
    ⟨"UW109", .info, .risk, -12, [.company], ["hasSafetyCertifications", "safetyCertifications"], uw109check⟩,
    ⟨"UW110", .info, .risk, -10, [.company], ["hasRiskManagementProgram"], uw110check⟩,
    ⟨"UW111", .info, .profitability, -8, [.company], ["yearsInBusiness"], uw111check⟩,
    ⟨"UW112", .info, .risk, -10, [.company], ["industry"], uw112check⟩ ]

/-- Underwriting tier thresholds (calculateRiskTier). -/
def calculateRiskTier (score : ℤ) : RiskTier :=
  if score ≥ 70 then .decline
  else if score ≥ 50 then .substandard
  else if score ≥ 25 then .standard
  else .preferred

/-- Base-premium formula (calculateBasePremium): coverage * 0.005 times an
age factor (individual, JS-truthy age test) or 0.8 * max(1, employees/50)
(company, JS-truthy employee-count test). -/
def calculateBasePremium : UWApp → ℤ
  | .individual d =>
    let ageFactor : ℚ :=
      if numTruthy d.age then
        let a := d.age.getD 0
        if a < 30 then 7/10
        else if a < 40 then 9/10
        else if a < 50 then 11/10
        else if a < 60 then 14/10
        else 2
      else 1
    jsRound (d.requestedCoverageAmount * (5/1000) * ageFactor)
  | .company d =>
    let employeeFactor : ℚ :=
      if numTruthy d.employeeCount then max 1 (d.employeeCount.getD 0 / 50) else 1
    jsRound (d.requestedCoverageAmount * (5/1000) * (8/10) * employeeFactor)

/-- Rules applicable to an applicant type (the `continue` filter of the
aggregation loop). -/
def applicableRules (t : ApplicantType) : List UWRule :=
  underwritingRules.filter (fun r => r.applicantTypes.contains t)

/-- Weighted premium impact of one rule on one input: round(basePremiumImpact
* confidence / 100) when triggered, 0 otherwise. -/
def uwWeighted (r : UWRule) (a : UWApp) : ℤ :=
  let res := r.check a
  if res.triggered then jsRound (r.basePremiumImpact * (res.confidence / 100)) else 0

/-- Risk-dimension accumulator: |weighted impact| of triggered positive-weight
risk rules. -/
def riskSum (a : UWApp) : ℤ :=
  ((applicableRules (appType a)).map (fun r =>
    if (r.check a).triggered ∧ r.dimension = .risk ∧ r.basePremiumImpact > 0 then
      |uwWeighted r a|
    else 0)).sum

/-- Profitability-dimension accumulator: |weighted impact| of triggered
positive-weight profitability rules. -/
def profitSum (a : UWApp) : ℤ :=
  ((applicableRules (appType a)).map (fun r =>
    if (r.check a).triggered ∧ r.dimension = .profitability ∧ r.basePremiumImpact > 0 then
      |uwWeighted r a|
    else 0)).sum

/-- Net adjustment accumulator: signed weighted impacts of all triggered
rules. -/
def totalAdjustment (a : UWApp) : ℤ :=
  ((applicableRules (appType a)).map (fun r => uwWeighted r a)).sum

/-- Underwriting assessment (ids, timestamps, signal list, summary prose and
projected loss ratio dropped; the latter is a fixed per-tier constant). -/
structure UWAssessment where
  applicantType : ApplicantType
  overallRiskScore : ℤ
  profitabilityScore : ℤ
  riskTier : RiskTier
  basePremium : ℤ
  adjustmentPercentage : ℤ
  recommendedPremium : ℤ
  isApproved : Bool
deriving DecidableEq, Repr

/-- Embedding of analyzeUnderwriting. -/
def analyzeUnderwriting (a : UWApp) : UWAssessment :=
  let cappedAdjustment := max (-40) (min 40 (totalAdjustment a))
  let overallRiskScore := min 100 (riskSum a + profitSum a)
  let riskTier := calculateRiskTier overallRiskScore
  let basePremium := calculateBasePremium a
  let recommendedPremium := jsRound ((basePremium : ℚ) * (1 + (cappedAdjustment : ℚ) / 100))
  { applicantType := appType a
    overallRiskScore := overallRiskScore
    profitabilityScore := min 100 (profitSum a)
    riskTier := riskTier
    basePremium := basePremium
    adjustmentPercentage := cappedAdjustment
    recommendedPremium := recommendedPremium
    isApproved := riskTier ≠ .decline }

/-- Strips every comma, dollar and percent character, modelling the
/[,$%]/g replace of parseNumericValue. -/
def stripPunct (s : String) : String :=
  ⟨s.data.filter (fun c => !(c == ',' || c == '$' || c == '%'))⟩

/-- Accumulates a digit list into a natural number. -/
def digitsVal (ds : List Char) : ℕ := ds.foldl (fun a c => a * 10 + digitVal c) 0

/-- Model of JS parseFloat: skip leading whitespace, then read the longest
prefix that is a signed decimal literal with optional fraction and exponent;
none when no such prefix exists (NaN).  The Infinity literal, which no input
of this application produces, is not modelled. -/
def jsParseFloat (s : String) : Option ℚ :=
  let cs := s.data.dropWhile (fun c => c == ' ' || c == '\t' || c == '\n' || c == '\r')
  let signAndRest : ℚ × List Char :=
    match cs with
    | '+' :: r => (1, r)
    | '-' :: r => (-1, r)
    | _ => (1, cs)
  let sign := signAndRest.1
  let (ip, cs2) := signAndRest.2.span (fun c => c.isDigit)
  let fracAndRest : List Char × List Char :=
    match cs2 with
    | '.' :: r => r.span (fun c => c.isDigit)
    | _ => ([], cs2)
  let fp := fracAndRest.1
  let cs3 := fracAndRest.2
  if ip.isEmpty && fp.isEmpty then none
  else
    let mant : ℚ := (digitsVal ip : ℚ) + (digitsVal fp : ℚ) / (10 : ℚ) ^ fp.length
    let expv : ℤ :=
      match cs3 with
      | e :: r =>
        if e == 'e' || e == 'E' then
          let expSignAndRest : ℤ × List Char :=
            match r with
            | '+' :: r2 => (1, r2)
            | '-' :: r2 => (-1, r2)
            | _ => (1, r)
          let ed := (expSignAndRest.2.span (fun c => c.isDigit)).1
          if ed.isEmpty then 0 else expSignAndRest.1 * (digitsVal ed : ℤ)
        else 0
      | [] => 0
    some (sign * mant * (10 : ℚ) ^ expv)

/-- parseNumericValue of the validation engine: strip [,$%], trim, parseFloat,
null on NaN. -/
def parseNumericValue (value : String) : Option ℚ :=
  jsParseFloat (jsTrim (stripPunct value))

/-- Lexicographic comparison of character lists by code point, modelling the
JS relational operators on strings. -/
def charsLt : List Char → List Char → Bool
  | [], [] => false
  | [], _ :: _ => true
  | _ :: _, [] => false
  | a :: as, b :: bs =>
    if a.val < b.val then true
    else if b.val < a.val then false
    else charsLt as bs

/-- JS a < b on strings. -/
def jsStrLt (a b : String) : Bool := charsLt a.data b.data

/-- Operators of the validation-rule engine. -/
inductive RuleOperator where
  | greaterThan
  | lessThan
  | equals
  | notEquals
  | contains
  | notContains
  | greaterThanOrEqual
  | lessThanOrEqual
deriving DecidableEq, Repr

/-- Confidence level of an extracted field. -/
inductive ConfidenceLevel where
  | high
  | medium
  | low
deriving DecidableEq, Repr

/-- Extracted document field (extractedFieldSchema). -/
structure ExtractedField where
  id : String := ""
  label : String
  value : String
  confidence : ConfidenceLevel := .high
  isEdited : Bool := false
deriving DecidableEq, Repr

/-- One condition of a user-defined validation rule. -/
structure RuleCondition where
  field : String
  operator : RuleOperator
  value : String
deriving DecidableEq, Repr

/-- ALL/ANY combinator of a rule. -/
inductive RuleLogic where
  | all
  | any
deriving DecidableEq, Repr

/-- Fail-if-matched / pass-if-matched action of a rule. -/
inductive RuleAction where
  | fail
  | pass
deriving DecidableEq, Repr

/-- User-defined validation rule (ruleSchema). -/
structure Rule where
  id : String := ""
  name : String := ""
  description : String := ""
  conditions : List RuleCondition
  logic : RuleLogic
  action : RuleAction
  enabled : Bool := true
deriving DecidableEq, Repr

/-- Result of evaluating one condition. -/
structure CondResult where
  matched : Bool
  actualValue : String
deriving DecidableEq, Repr

/-- Case-insensitive lookup of the field a condition references. -/
def findField (fields : List ExtractedField) (name : String) : Option ExtractedField :=
  fields.find? (fun f => jsToLower f.label == jsToLower name)

/-- Embedding of evaluateCondition of the validation engine. -/
def evaluateCondition (condition : RuleCondition) (fields : List ExtractedField) : CondResult :=
  match findField fields condition.field with
  | none => ⟨false, "N/A"⟩
  | some field =>
    let actualValue := field.value
    let expectedValue := condition.value
    let actualNum := parseNumericValue actualValue
    let expectedNum := parseNumericValue expectedValue
    match condition.operator with
    | .greaterThan =>
      match actualNum, expectedNum with
      | some x, some y => ⟨decide (x > y), actualValue⟩
      | _, _ => ⟨jsStrLt expectedValue actualValue, actualValue⟩
    | .lessThan =>
      match actualNum, expectedNum with
      | some x, some y => ⟨decide (x < y), actualValue⟩
      | _, _ => ⟨jsStrLt actualValue expectedValue, actualValue⟩
    | .greaterThanOrEqual =>
      match actualNum, expectedNum with
      | some x, some y => ⟨decide (x ≥ y), actualValue⟩
      | _, _ => ⟨!jsStrLt actualValue expectedValue, actualValue⟩
    | .lessThanOrEqual =>
      match actualNum, expectedNum with
      | some x, some y => ⟨decide (x ≤ y), actualValue⟩
      | _, _ => ⟨!jsStrLt expectedValue actualValue, actualValue⟩
    | .equals =>
      match actualNum, expectedNum with
      | some x, some y => ⟨decide (x = y), actualValue⟩
      | _, _ => ⟨jsToLower actualValue == jsToLower expectedValue, actualValue⟩
    | .notEquals =>
      match actualNum, expectedNum with
      | some x, some y => ⟨decide (x ≠ y), actualValue⟩
      | _, _ => ⟨!(jsToLower actualValue == jsToLower expectedValue), actualValue⟩
    | .contains =>
      ⟨jsIncludes (jsToLower actualValue) (jsToLower expectedValue), actualValue⟩
    | .notContains =>
      ⟨!jsIncludes (jsToLower actualValue) (jsToLower expectedValue), actualValue⟩

/-- Result of evaluating one rule. -/
structure RuleEvalResult where
  ruleId : String
  ruleName : String
  passed : Bool
  triggeredConditions : List CondResult
deriving DecidableEq, Repr

/-- Embedding of evaluateRule: ALL/ANY over the condition matches, inverted
when the action is fail-if-matched. -/
def evaluateRule (rule : Rule) (fields : List ExtractedField) : RuleEvalResult :=
  let triggered := rule.conditions.map (fun c => evaluateCondition c fields)
  let rulePassed :=
    match rule.logic with
    | .all =>
      let allConditionsMet := triggered.all (fun c => c.matched)
      if rule.action = .pass then allConditionsMet else !allConditionsMet
    | .any =>
      let anyConditionMet := triggered.any (fun c => c.matched)
      if rule.action = .pass then anyConditionMet else !anyConditionMet
  ⟨rule.id, rule.name, rulePassed, triggered⟩

/-- Verdict over a rule set. -/
inductive Verdict where
  | pass
  | fail
  | pending
deriving DecidableEq, Repr

/-- Overall evaluation result of evaluateClaim. -/
structure ClaimVerdict where
  verdict : Verdict
  evaluatedRules : List RuleEvalResult
  failedRules : List String
  passedRules : List String
deriving DecidableEq, Repr

/-- Embedding of evaluateClaim: pending on an empty rule set, otherwise fail
iff some rule failed. -/
def evaluateClaim (fields : List ExtractedField) (rules : List Rule) : ClaimVerdict :=
  if rules.isEmpty then ⟨.pending, [], [], []⟩
  else
    let evaluatedRules := rules.map (fun r => evaluateRule r fields)
    let failedRules := (evaluatedRules.filter (fun r => !r.passed)).map (fun r => r.ruleName)
    let passedRules := (evaluatedRules.filter (fun r => r.passed)).map (fun r => r.ruleName)
    let verdict := if failedRules.length > 0 then Verdict.fail else Verdict.pass
    ⟨verdict, evaluatedRules, failedRules, passedRules⟩

/-- Summary block of the fraud bulk endpoint. -/
structure FraudBulkSummary where
  highRisk : ℕ
  mediumRisk : ℕ
  lowRisk : ℕ
  averageScore : ℤ
deriving DecidableEq, Repr

/-- Response body of POST /api/fraud/analyze-bulk. -/
structure FraudBulkResult where
  totalClaims : ℕ
  summary : FraudBulkSummary
  results : List FraudAssessment
deriving DecidableEq, Repr

/-- Embedding of the POST /api/fraud/analyze-bulk handler.  Each element of
the input list stands for one raw record of the request body after zod
validation: `some d` for a record that parses, `none` for one that fails
claimDataInputSchema.  The handler parses the batch wholesale with
z.array(claimDataInputSchema).min(1).max(500): a batch that is empty, longer
than 500, or containing any invalid record is rejected with a 400 error. -/
def fraudAnalyzeBulk (claims : List (Option ClaimData)) : Except String FraudBulkResult :=
  if claims.length < 1 ∨ claims.length > 500 ∨ claims.any (fun c => c.isNone) then
    .error "Invalid claims data"
  else
    let results := (claims.filterMap id).map analyzeFraud
    let highRisk := (results.filter (fun r => r.riskLevel == RiskLevel.high)).length
    let mediumRisk := (results.filter (fun r => r.riskLevel == RiskLevel.medium)).length
    let lowRisk := (results.filter (fun r => r.riskLevel == RiskLevel.low)).length
    let averageScore :=
      jsRound ((((results.map (fun r => r.overallScore)).sum : ℤ) : ℚ) / (results.length : ℚ))
    .ok ⟨results.length, ⟨highRisk, mediumRisk, lowRisk, averageScore⟩, results⟩

/-- Summary block of the underwriting bulk endpoint. -/
structure UWBulkSummary where
  preferred : ℕ
  standard : ℕ
  substandard : ℕ
  declined : ℕ
  averageRiskScore : ℚ
  averagePremiumAdjustment : ℚ
  totalPremiumValue : ℤ
deriving DecidableEq, Repr

/-- Response body of POST /api/underwriting/analyze-bulk. -/
structure UWBulkResult where
  totalApplications : ℕ
  summary : UWBulkSummary
  results : List UWAssessment
deriving DecidableEq, Repr

/-- Summary statistics over the valid results of an underwriting batch, with
the explicit length-0 guards of the source (averages of an empty result list
are 0, not NaN). -/
def uwBulkSummaryOf (validResults : List UWAssessment) : UWBulkSummary :=
  { preferred := (validResults.filter (fun r => r.riskTier == RiskTier.preferred)).length
    standard := (validResults.filter (fun r => r.riskTier == RiskTier.standard)).length
    substandard := (validResults.filter (fun r => r.riskTier == RiskTier.substandard)).length
    declined := (validResults.filter (fun r => r.riskTier == RiskTier.decline)).length
    averageRiskScore :=
      if validResults.length > 0 then
        (((validResults.map (fun r => r.overallRiskScore)).sum : ℤ) : ℚ) / (validResults.length : ℚ)
      else 0
    averagePremiumAdjustment :=
      if validResults.length > 0 then
        (((validResults.map (fun r => r.adjustmentPercentage)).sum : ℤ) : ℚ) / (validResults.length : ℚ)
      else 0
    totalPremiumValue := (validResults.map (fun r => r.recommendedPremium)).sum }

/-- Embedding of the POST /api/underwriting/analyze-bulk handler.  As above,
`none` stands for a record that fails underwritingApplicationInputSchema.
Only an empty batch is rejected; invalid records are mapped to null and
filtered out per-record, silently. -/
def underwritingAnalyzeBulk (applications : List (Option UWApp)) : Except String UWBulkResult :=
  if applications.isEmpty then .error "No applications provided"
  else
    let validResults := (applications.map (fun o => o.map analyzeUnderwriting)).filterMap id
    .ok ⟨validResults.length, uwBulkSummaryOf validResults, validResults⟩

/-- Modelled from the spec (§4.4 table): the fraud tier as a function of a
score in [0,100], inclusive-lower / exclusive-upper bands. -/
def specFraudTier (s : ℤ) : RiskLevel :=
  if s < 30 then .low
  else if s < 60 then .medium
  else .high

/-- Modelled from the spec (§4.4 table): the underwriting tier as a function
of a score in [0,100], inclusive-lower / exclusive-upper bands. -/
def specUWTier (s : ℤ) : RiskTier :=
  if s < 25 then .preferred
  else if s < 50 then .standard
  else if s < 70 then .substandard
  else .decline

/-- Coverage amount of either applicant variant. -/
def coverageOf : UWApp → ℚ
  | .individual d => d.requestedCoverageAmount
  | .company d => d.requestedCoverageAmount

/-- Modelled from the words of claim C8: the variant factor with the age band
applied to every defined age and 1.0 only for an undefined age. -/
def claimC8VariantFactor : UWApp → ℚ
  | .individual d =>
    match d.age with
    | none => 1
    | some a =>
      if a < 30 then 7/10
      else if a < 40 then 9/10
      else if a < 50 then 11/10
      else if a < 60 then 14/10
      else 2
  | .company d =>
    match d.employeeCount with
    | none => 8/10
    | some e => 8/10 * max 1 (e / 50)

/-- Claim C8 as amended: identical to claimC8VariantFactor except that an age
of 0 — falsy in JS — also gives factor 1. -/
def amendedVariantFactor : UWApp → ℚ
  | .individual d =>
    match d.age with
    | none => 1
    | some a =>
      if a = 0 then 1
      else if a < 30 then 7/10
      else if a < 40 then 9/10
      else if a < 50 then 11/10
      else if a < 60 then 14/10
      else 2
  | .company d =>
    match d.employeeCount with
    | none => 8/10
    | some e => 8/10 * max 1 (e / 50)

/-- Base premium computed from the words of claim C8. -/
def claimC8BasePremium (a : UWApp) : ℤ :=
  jsRound (coverageOf a * (5/1000) * claimC8VariantFactor a)

/-- Whether a named field of a fraud input is absent (undefined); names not
in the schema are never absent. -/
def fraudFieldAbsent (d : ClaimData) : String → Bool
  | "claimantName" => d.claimantName.isNone
  | "policyNumber" => d.policyNumber.isNone
  | "claimNumber" => d.claimNumber.isNone
  | "claimDate" => d.claimDate.isNone
  | "claimAmount" => d.claimAmount.isNone
  | "incidentDate" => d.incidentDate.isNone
  | "incidentDescription" => d.incidentDescription.isNone
  | "incidentLocation" => d.incidentLocation.isNone
  | "treatmentDate" => d.treatmentDate.isNone
  | "providerName" => d.providerName.isNone
  | "providerNPI" => d.providerNPI.isNone
  | "diagnosisCode" => d.diagnosisCode.isNone
  | "claimantAddress" => d.claimantAddress.isNone
  | "claimantPhone" => d.claimantPhone.isNone
  | "claimantEmail" => d.claimantEmail.isNone
  | "vehicleInfo" => d.vehicleInfo.isNone
  | "policyHolderName" => d.policyHolderName.isNone
  | "policyLimit" => d.policyLimit.isNone
  | "previousClaimsCount" => d.previousClaimsCount.isNone
  | "daysSinceLastClaim" => d.daysSinceLastClaim.isNone
  | _ => false

/-- Whether a named field of an individual application is absent; required
fields (fullName, requestedCoverageAmount, coverageType) are never absent. -/
def indFieldAbsent (d : IndividualApp) : String → Bool
  | "dateOfBirth" => d.dateOfBirth.isNone
  | "age" => d.age.isNone
  | "gender" => d.gender.isNone
  | "occupation" => d.occupation.isNone
  | "annualIncome" => d.annualIncome.isNone
  | "netWorth" => d.netWorth.isNone
  | "creditScore" => d.creditScore.isNone
  | "smokingStatus" => d.smokingStatus.isNone
  | "hasChronicConditions" => d.hasChronicConditions.isNone
  | "chronicConditions" => d.chronicConditions.isNone
  | "bmi" => d.bmi.isNone
  | "hazardousHobbies" => d.hazardousHobbies.isNone
  | "previousClaimsCount" => d.previousClaimsCount.isNone
  | "previousClaimsAmount" => d.previousClaimsAmount.isNone
  | "yearsWithPriorCoverage" => d.yearsWithPriorCoverage.isNone
  | "policyTerm" => d.policyTerm.isNone
  | _ => false

/-- Whether a named field of a company application is absent; required fields
(companyName, industry, requestedCoverageAmount, coverageType) are never
absent. -/
def compFieldAbsent (d : CompanyApp) : String → Bool
  | "industryCode" => d.industryCode.isNone
  | "yearsInBusiness" => d.yearsInBusiness.isNone
  | "employeeCount" => d.employeeCount.isNone
  | "annualRevenue" => d.annualRevenue.isNone
  | "annualPayroll" => d.annualPayroll.isNone
  | "netWorth" => d.netWorth.isNone
  | "previousClaimsCount" => d.previousClaimsCount.isNone
  | "previousClaimsAmount" => d.previousClaimsAmount.isNone
  | "priorLossRatio" => d.priorLossRatio.isNone
  | "oshaIncidents" => d.oshaIncidents.isNone
  | "hasSafetyCertifications" => d.hasSafetyCertifications.isNone
  | "safetyCertifications" => d.safetyCertifications.isNone
  | "hasRiskManagementProgram" => d.hasRiskManagementProgram.isNone
  | "geographicConcentration" => d.geographicConcentration.isNone
  | "liquidityRatio" => d.liquidityRatio.isNone
  | "policyTerm" => d.policyTerm.isNone
  | _ => false

/-- Whether a named field of an underwriting application is absent. -/
def uwFieldAbsent (a : UWApp) (f : String) : Bool :=
  match a with
  | .individual d => indFieldAbsent d f
  | .company d => compFieldAbsent d f

/-- One fraud input extends another by supplying a value for exactly one
previously-absent field, all other fields unchanged. -/
def addsOneField (d e : ClaimData) : Prop :=
  (d.claimantName = none ∧ ∃ v, e = { d with claimantName := some v }) ∨
  (d.policyNumber = none ∧ ∃ v, e = { d with policyNumber := some v }) ∨
  (d.claimNumber = none ∧ ∃ v, e = { d with claimNumber := some v }) ∨
  (d.claimDate = none ∧ ∃ v, e = { d with claimDate := some v }) ∨
  (d.claimAmount = none ∧ ∃ v, e = { d with claimAmount := some v }) ∨
  (d.incidentDate = none ∧ ∃ v, e = { d with incidentDate := some v }) ∨
  (d.incidentDescription = none ∧ ∃ v, e = { d with incidentDescription := some v }) ∨
  (d.incidentLocation = none ∧ ∃ v, e = { d with incidentLocation := some v }) ∨
  (d.treatmentDate = none ∧ ∃ v, e = { d with treatmentDate := some v }) ∨
  (d.providerName = none ∧ ∃ v, e = { d with providerName := some v }) ∨
  (d.providerNPI = none ∧ ∃ v, e = { d with providerNPI := some v }) ∨
  (d.diagnosisCode = none ∧ ∃ v, e = { d with diagnosisCode := some v }) ∨
  (d.claimantAddress = none ∧ ∃ v, e = { d with claimantAddress := some v }) ∨
  (d.claimantPhone = none ∧ ∃ v, e = { d with claimantPhone := some v }) ∨
  (d.claimantEmail = none ∧ ∃ v, e = { d with claimantEmail := some v }) ∨
  (d.vehicleInfo = none ∧ ∃ v, e = { d with vehicleInfo := some v }) ∨
  (d.policyHolderName = none ∧ ∃ v, e = { d with policyHolderName := some v }) ∨
  (d.policyLimit = none ∧ ∃ v, e = { d with policyLimit := some v }) ∨
  (d.previousClaimsCount = none ∧ ∃ v, e = { d with previousClaimsCount := some v }) ∨
  (d.daysSinceLastClaim = none ∧ ∃ v, e = { d with daysSinceLastClaim := some v })

/-- Modelled from the words of claim C2: the sum, over triggered
positive-weight rules of one dimension, of round(baseWeight * confidence /
100). -/
def specDimSum (dim : Dimension) (a : UWApp) : ℤ :=
  ((applicableRules (appType a)).map (fun r =>
    if (r.check a).triggered ∧ r.dimension = dim ∧ r.basePremiumImpact > 0 then
      jsRound (r.basePremiumImpact * ((r.check a).confidence / 100))
    else 0)).sum

/-- Operators claim C6 calls the numeric comparison operators. -/
def numericOps : List RuleOperator :=
  [.greaterThan, .lessThan, .greaterThanOrEqual, .lessThanOrEqual, .equals, .notEquals]

/-- Modelled from the words of claim C6: the comparison applied when both
operands parse numerically. -/
def numCompare (op : RuleOperator) (x y : ℚ) : Bool :=
  match op with
  | .greaterThan => decide (x > y)
  | .lessThan => decide (x < y)
  | .greaterThanOrEqual => decide (x ≥ y)
  | .lessThanOrEqual => decide (x ≤ y)
  | .equals => decide (x = y)
  | .notEquals => decide (x ≠ y)
  | _ => false

/-- Modelled from the words of claim C6: the string fallback when either
operand fails to parse — lexicographic for the four order operators,
case-insensitive equality for equals/notEquals. -/
def strCompare (op : RuleOperator) (a b : String) : Bool :=
  match op with
  | .greaterThan => jsStrLt b a
  | .lessThan => jsStrLt a b
  | .greaterThanOrEqual => !jsStrLt a b
  | .lessThanOrEqual => !jsStrLt b a
  | .equals => jsToLower a == jsToLower b
  | .notEquals => !(jsToLower a == jsToLower b)
  | _ => false

theorem jsRound_nonneg {q : ℚ} (h : 0 ≤ q) : 0 ≤ jsRound q := by
  have h2 : (0 : ℚ) ≤ q + 1/2 := by linarith
  exact Int.le_floor.mpr (by exact_mod_cast h2)

theorem conf_nonneg_fr001 (d : ClaimData) : 0 ≤ (fr001check d).confidence := by
  simp only [fr001check]
  repeat' split
  all_goals norm_num

theorem conf_nonneg_fr003 (d : ClaimData) : 0 ≤ (fr003check d).confidence := by
  simp only [fr003check]
  repeat' split
  all_goals norm_num

theorem conf_nonneg_fr002 (d : ClaimData) : 0 ≤ (fr002check d).confidence := by
  simp only [fr002check]
  repeat' split
  all_goals norm_num

theorem conf_nonneg_fr004 (d : ClaimData) : 0 ≤ (fr004check d).confidence := by
  simp only [fr004check]
  repeat' split
  all_goals norm_num

theorem conf_nonneg_fr005 (d : ClaimData) : 0 ≤ (fr005check d).confidence := by
  simp only [fr005check]
  repeat' split
  all_goals norm_num

theorem conf_nonneg_fr006 (d : ClaimData) : 0 ≤ (fr006check d).confidence := by
  simp only [fr006check]
  repeat' split
  all_goals norm_num

theorem conf_nonneg_fr007 (d : ClaimData) : 0 ≤ (fr007check d).confidence := by
  simp only [fr007check]
  repeat' split
  all_goals norm_num

theorem conf_nonneg_fr008 (d : ClaimData) : 0 ≤ (fr008check d).confidence := by
  simp only [fr008check]
  repeat' split
  all_goals norm_num

theorem conf_nonneg_fr009 (d : ClaimData) : 0 ≤ (fr009check d).confidence := by
  simp only [fr009check]
  repeat' split
  all_goals norm_num

theorem conf_nonneg_fr010 (d : ClaimData) : 0 ≤ (fr010check d).confidence := by
  simp only [fr010check]
  repeat' split
  all_goals norm_num

theorem conf_nonneg_fr011 (d : ClaimData) : 0 ≤ (fr011check d).confidence := by
  simp only [fr011check]
  repeat' split
  all_goals norm_num

theorem conf_nonneg_fr012 (d : ClaimData) : 0 ≤ (fr012check d).confidence := by
  simp only [fr012check]
  repeat' split
  all_goals norm_num

theorem ruleScore_nonneg (r : FraudRule) (d : ClaimData) (hb : 0 ≤ r.baseScore)
    (hc : 0 ≤ (r.check d).confidence) : 0 ≤ ruleScore r d := by
  simp only [ruleScore]
  split
  · exact jsRound_nonneg (mul_nonneg hb (div_nonneg hc (by norm_num)))
  · exact le_refl 0

theorem score_nonneg_all (r : FraudRule) (hr : r ∈ fraudRules) (d : ClaimData) :
    0 ≤ ruleScore r d := by
  simp only [fraudRules, List.mem_cons, List.not_mem_nil, or_false] at hr
  rcases hr with rfl | rfl | rfl | rfl | rfl | rfl | rfl | rfl | rfl | rfl | rfl | rfl
  · exact ruleScore_nonneg _ _ (by norm_num) (conf_nonneg_fr001 d)
  · exact ruleScore_nonneg _ _ (by norm_num) (conf_nonneg_fr002 d)
  · exact ruleScore_nonneg _ _ (by norm_num) (conf_nonneg_fr003 d)
  · exact ruleScore_nonneg _ _ (by norm_num) (conf_nonneg_fr004 d)
  · exact ruleScore_nonneg _ _ (by norm_num) (conf_nonneg_fr005 d)
  · exact ruleScore_nonneg _ _ (by norm_num) (conf_nonneg_fr006 d)
  · exact ruleScore_nonneg _ _ (by norm_num) (conf_nonneg_fr007 d)
  · exact ruleScore_nonneg _ _ (by norm_num) (conf_nonneg_fr008 d)
  · exact ruleScore_nonneg _ _ (by norm_num) (conf_nonneg_fr009 d)
  · exact ruleScore_nonneg _ _ (by norm_num) (conf_nonneg_fr010 d)
  · exact ruleScore_nonneg _ _ (by norm_num) (conf_nonneg_fr011 d)
  · exact ruleScore_nonneg _ _ (by norm_num) (conf_nonneg_fr012 d)

theorem totalScore_nonneg (d : ClaimData) : 0 ≤ totalScore d := by
  unfold totalScore
  apply List.sum_nonneg
  intro x hx
  obtain ⟨r, hr, rfl⟩ := List.mem_map.mp hx
  exact score_nonneg_all r hr d

theorem riskLevel_eq_spec (s : ℤ) : calculateRiskLevel s = specFraudTier s := by
  unfold calculateRiskLevel specFraudTier
  split_ifs <;> first | rfl | omega

theorem riskTier_eq_spec (s : ℤ) : calculateRiskTier s = specUWTier s := by
  unfold calculateRiskTier specUWTier
  split_ifs <;> first | rfl | omega

theorem riskSum_nonneg (a : UWApp) : 0 ≤ riskSum a := by
  unfold riskSum
  apply List.sum_nonneg
  intro x hx
  obtain ⟨r, _, rfl⟩ := List.mem_map.mp hx
  split
  · exact abs_nonneg _
  · exact le_refl 0

theorem profitSum_nonneg (a : UWApp) : 0 ≤ profitSum a := by
  unfold profitSum
  apply List.sum_nonneg
  intro x hx
  obtain ⟨r, _, rfl⟩ := List.mem_map.mp hx
  split
  · exact abs_nonneg _
  · exact le_refl 0

/-- C1: for every fraud claim input and every underwriting application the
overall score lies in [0,100], and the tier is exactly the threshold
function of the score given in the §4.4 table, with inclusive lower and
exclusive upper bounds (so the tier at a fraud score of exactly 30 is
medium and at exactly 60 is high, and the specFraudTier / specUWTier
functions are modelled from the spec table). -/
theorem claim1_score_bounds_and_tiers :
    (∀ d : ClaimData,
      0 ≤ (analyzeFraud d).overallScore ∧ (analyzeFraud d).overallScore ≤ 100 ∧
      (analyzeFraud d).riskLevel = specFraudTier (analyzeFraud d).overallScore) ∧
    (∀ a : UWApp,
      0 ≤ (analyzeUnderwriting a).overallRiskScore ∧
      (analyzeUnderwriting a).overallRiskScore ≤ 100 ∧
      (analyzeUnderwriting a).riskTier = specUWTier (analyzeUnderwriting a).overallRiskScore) := by
  constructor
  · intro d
    refine ⟨le_min (by norm_num) (totalScore_nonneg d), min_le_left _ _, ?_⟩
    exact riskLevel_eq_spec _
  · intro a
    refine ⟨le_min (by norm_num) (add_nonneg (riskSum_nonneg a) (profitSum_nonneg a)), min_le_left _ _, ?_⟩
    exact riskTier_eq_spec _

theorem uw_conf_nonneg (r : UWRule) (hr : r ∈ underwritingRules) (a : UWApp) :
    0 ≤ (r.check a).confidence := by
  simp only [underwritingRules, List.mem_cons, List.not_mem_nil, or_false] at hr
  rcases hr with rfl | rfl | rfl | rfl | rfl | rfl | rfl | rfl | rfl | rfl | rfl | rfl |
    rfl | rfl | rfl | rfl | rfl | rfl | rfl | rfl | rfl | rfl | rfl | rfl <;>
  rcases a with d | d <;>
  simp only [uw001check, uw002check, uw003check, uw004check, uw005check, uw006check,
    uw007check, uw008check, uw009check, uw010check, uw011check, uw012check,
    uw101check, uw102check, uw103check, uw104check, uw105check, uw106check,
    uw107check, uw108check, uw109check, uw110check, uw111check, uw112check] <;>
  (repeat' split) <;>
  norm_num

theorem dimSum_eq_spec (dim : Dimension) (a : UWApp) :
    ((applicableRules (appType a)).map (fun r =>
      if (r.check a).triggered ∧ r.dimension = dim ∧ r.basePremiumImpact > 0 then
        |uwWeighted r a|
      else 0)).sum = specDimSum dim a := by
  unfold specDimSum
  congr 1
  apply List.map_congr_left
  intro r hr
  have hmem : r ∈ underwritingRules := (List.mem_filter.mp hr).1
  split_ifs with h
  · have htrig := h.1
    have hpos := h.2.2
    unfold uwWeighted
    rw [if_pos htrig]
    exact abs_of_nonneg (jsRound_nonneg (mul_nonneg (le_of_lt hpos)
      (div_nonneg (uw_conf_nonneg r hmem a) (by norm_num))))
  · rfl

theorem riskSum_eq_spec (a : UWApp) : riskSum a = specDimSum .risk a :=
  dimSum_eq_spec .risk a

theorem profitSum_eq_spec (a : UWApp) : profitSum a = specDimSum .profitability a :=
  dimSum_eq_spec .profitability a

/-- C2: the underwriting aggregation sums the positive-weight triggered
impacts into two separate dimension sub-scores; the assessment's
profitability score is the profitability sub-score capped at 100, the
overall risk score is the sum of the two sub-scores capped at 100 (so both
exposed scores are at most 100); the net adjustment is the sum of
round(baseWeight * confidence / 100) over all triggered signals of either
sign, clamped to [-40, 40]; and the fraud overall score is the single
total score capped via min(100, totalScore). -/
theorem claim2_aggregation :
    (∀ a : UWApp,
      (analyzeUnderwriting a).profitabilityScore = min 100 (specDimSum .profitability a) ∧
      (analyzeUnderwriting a).overallRiskScore =
        min 100 (specDimSum .risk a + specDimSum .profitability a) ∧
      (analyzeUnderwriting a).profitabilityScore ≤ 100 ∧
      (analyzeUnderwriting a).overallRiskScore ≤ 100 ∧
      (analyzeUnderwriting a).adjustmentPercentage = max (-40) (min 40 (totalAdjustment a)) ∧
      -40 ≤ (analyzeUnderwriting a).adjustmentPercentage ∧
      (analyzeUnderwriting a).adjustmentPercentage ≤ 40) ∧
    (∀ d : ClaimData, (analyzeFraud d).overallScore = min 100 (totalScore d)) := by
  constructor
  · intro a
    refine ⟨?_, ?_, min_le_left _ _, min_le_left _ _, rfl, le_max_left _ _,
      max_le (by norm_num) (min_le_left _ _)⟩
    · show min 100 (profitSum a) = _
      rw [profitSum_eq_spec]
    · show min 100 (riskSum a + profitSum a) = _
      rw [riskSum_eq_spec, profitSum_eq_spec]
  · intro d
    rfl

theorem fraud_missing_no_trigger (r : FraudRule) (hr : r ∈ fraudRules)
    (h6 : r.code ≠ "FR006") (h11 : r.code ≠ "FR011") (d : ClaimData)
    (habs : ∀ f ∈ r.impactedFields, fraudFieldAbsent d f = true) :
    r.check d = ⟨false, 0⟩ := by
  simp only [fraudRules, List.mem_cons, List.not_mem_nil, or_false] at hr
  rcases hr with rfl | rfl | rfl | rfl | rfl | rfl | rfl | rfl | rfl | rfl | rfl | rfl
  · have h1 := habs "claimantName" (by simp)
    simp only [fraudFieldAbsent, Option.isNone_iff_eq_none] at h1
    show fr001check d = ⟨false, 0⟩
    simp [fr001check, strTruthy, h1]
  · have h1 := habs "claimAmount" (by simp)
    simp only [fraudFieldAbsent, Option.isNone_iff_eq_none] at h1
    show fr002check d = ⟨false, 0⟩
    simp [fr002check, numTruthy, h1]
  · have h1 := habs "previousClaimsCount" (by simp)
    simp only [fraudFieldAbsent, Option.isNone_iff_eq_none] at h1
    show fr003check d = ⟨false, 0⟩
    simp [fr003check, h1]
  · have h1 := habs "incidentDate" (by simp)
    simp only [fraudFieldAbsent, Option.isNone_iff_eq_none] at h1
    show fr004check d = ⟨false, 0⟩
    simp [fr004check, strTruthy, h1]
  · have h1 := habs "providerName" (by simp)
    simp only [fraudFieldAbsent, Option.isNone_iff_eq_none] at h1
    show fr005check d = ⟨false, 0⟩
    simp [fr005check, strTruthy, h1]
  · exact absurd rfl h6
  · have h1 := habs "claimAmount" (by simp)
    simp only [fraudFieldAbsent, Option.isNone_iff_eq_none] at h1
    show fr007check d = ⟨false, 0⟩
    simp [fr007check, numTruthy, h1]
  · have h1 := habs "incidentDate" (by simp)
    simp only [fraudFieldAbsent, Option.isNone_iff_eq_none] at h1
    show fr008check d = ⟨false, 0⟩
    simp [fr008check, strTruthy, h1]
  · have h1 := habs "incidentDescription" (by simp)
    simp only [fraudFieldAbsent, Option.isNone_iff_eq_none] at h1
    show fr009check d = ⟨false, 0⟩
    simp [fr009check, strTruthy, h1]
  · have h1 := habs "claimAmount" (by simp)
    simp only [fraudFieldAbsent, Option.isNone_iff_eq_none] at h1
    show fr010check d = ⟨false, 0⟩
    simp [fr010check, numTruthy, h1]
  · exact absurd rfl h11
  · have h1 := habs "incidentDate" (by simp)
    simp only [fraudFieldAbsent, Option.isNone_iff_eq_none] at h1
    show fr012check d = ⟨false, 0⟩
    simp [fr012check, strTruthy, h1]

theorem uw_missing_no_trigger (r : UWRule) (hr : r ∈ underwritingRules) (a : UWApp)
    (habs : ∀ f ∈ r.impactedFields, uwFieldAbsent a f = true) :
    r.check a = ⟨false, 0⟩ := by
  simp only [underwritingRules, List.mem_cons, List.not_mem_nil, or_false] at hr
  rcases hr with rfl | rfl | rfl | rfl | rfl | rfl | rfl | rfl | rfl | rfl | rfl | rfl |
    rfl | rfl | rfl | rfl | rfl | rfl | rfl | rfl | rfl | rfl | rfl | rfl
  · rcases a with d | d
    · have h1 := habs "age" (by simp)
      simp only [uwFieldAbsent, indFieldAbsent, Option.isNone_iff_eq_none] at h1
      show uw001check (.individual d) = ⟨false, 0⟩
      simp [uw001check, numTruthy, h1]
    · rfl
  · rcases a with d | d
    · have h1 := habs "smokingStatus" (by simp)
      simp only [uwFieldAbsent, indFieldAbsent, Option.isNone_iff_eq_none] at h1
      show uw002check (.individual d) = ⟨false, 0⟩
      simp [uw002check, h1]
    · rfl
  · rcases a with d | d
    · have h1 := habs "hasChronicConditions" (by simp)
      simp only [uwFieldAbsent, indFieldAbsent, Option.isNone_iff_eq_none] at h1
      show uw003check (.individual d) = ⟨false, 0⟩
      simp [uw003check, boolTruthy, h1]
    · rfl
  · rcases a with d | d
    · have h1 := habs "bmi" (by simp)
      simp only [uwFieldAbsent, indFieldAbsent, Option.isNone_iff_eq_none] at h1
      show uw004check (.individual d) = ⟨false, 0⟩
      simp [uw004check, numTruthy, h1]
    · rfl
  · rcases a with d | d
    · have h1 := habs "occupation" (by simp)
      simp only [uwFieldAbsent, indFieldAbsent, Option.isNone_iff_eq_none] at h1
      show uw005check (.individual d) = ⟨false, 0⟩
      simp [uw005check, strTruthy, h1]
    · rfl
  · rcases a with d | d
    · have h1 := habs "hazardousHobbies" (by simp)
      simp only [uwFieldAbsent, indFieldAbsent, Option.isNone_iff_eq_none] at h1
      show uw006check (.individual d) = ⟨false, 0⟩
      simp [uw006check, listNonempty, h1]
    · rfl
  · rcases a with d | d
    · have h1 := habs "creditScore" (by simp)
      simp only [uwFieldAbsent, indFieldAbsent, Option.isNone_iff_eq_none] at h1
      show uw007check (.individual d) = ⟨false, 0⟩
      simp [uw007check, numTruthy, h1]
    · rfl
  · rcases a with d | d
    · have h1 := habs "annualIncome" (by simp)
      simp only [uwFieldAbsent, indFieldAbsent, Option.isNone_iff_eq_none] at h1
      show uw008check (.individual d) = ⟨false, 0⟩
      simp [uw008check, numTruthy, h1]
    · rfl
  · rcases a with d | d
    · have h1 := habs "previousClaimsCount" (by simp)
      simp only [uwFieldAbsent, indFieldAbsent, Option.isNone_iff_eq_none] at h1
      show uw009check (.individual d) = ⟨false, 0⟩
      simp [uw009check, numTruthy, h1]
    · rfl
  · rcases a with d | d
    · have h1 := habs "yearsWithPriorCoverage" (by simp)
      simp only [uwFieldAbsent, indFieldAbsent, Option.isNone_iff_eq_none] at h1
      show uw010check (.individual d) = ⟨false, 0⟩
      simp [uw010check, h1]
    · rfl
  · rcases a with d | d
    · have h1 := habs "creditScore" (by simp)
      simp only [uwFieldAbsent, indFieldAbsent, Option.isNone_iff_eq_none] at h1
      show uw011check (.individual d) = ⟨false, 0⟩
      simp [uw011check, numTruthy, h1]
    · rfl
  · rcases a with d | d
    · have h1 := habs "smokingStatus" (by simp)
      simp only [uwFieldAbsent, indFieldAbsent, Option.isNone_iff_eq_none] at h1
      show uw012check (.individual d) = ⟨false, 0⟩
      simp [uw012check, h1]
    · rfl
  · rcases a with d | d
    · rfl
    · have h1 := habs "industry" (by simp)
      have h2 : uwFieldAbsent (UWApp.company d) "industry" = false := rfl
      rw [h2] at h1
      cases h1
  · rcases a with d | d
    · rfl
    · have h1 := habs "yearsInBusiness" (by simp)
      simp only [uwFieldAbsent, compFieldAbsent, Option.isNone_iff_eq_none] at h1
      show uw102check (.company d) = ⟨false, 0⟩
      simp [uw102check, h1]
  · rcases a with d | d
    · rfl
    · have h1 := habs "priorLossRatio" (by simp)
      simp only [uwFieldAbsent, compFieldAbsent, Option.isNone_iff_eq_none] at h1
      show uw103check (.company d) = ⟨false, 0⟩
      simp [uw103check, h1]
  · rcases a with d | d
    · rfl
    · have h1 := habs "oshaIncidents" (by simp)
      simp only [uwFieldAbsent, compFieldAbsent, Option.isNone_iff_eq_none] at h1
      show uw104check (.company d) = ⟨false, 0⟩
      simp [uw104check, numTruthy, h1]
  · rcases a with d | d
    · rfl
    · have h1 := habs "geographicConcentration" (by simp)
      simp only [uwFieldAbsent, compFieldAbsent, Option.isNone_iff_eq_none] at h1
      show uw105check (.company d) = ⟨false, 0⟩
      simp [uw105check, h1]
  · rcases a with d | d
    · rfl
    · have h1 := habs "liquidityRatio" (by simp)
      simp only [uwFieldAbsent, compFieldAbsent, Option.isNone_iff_eq_none] at h1
      show uw106check (.company d) = ⟨false, 0⟩
      simp [uw106check, h1]
  · rcases a with d | d
    · rfl
    · have h1 := habs "employeeCount" (by simp)
      simp only [uwFieldAbsent, compFieldAbsent, Option.isNone_iff_eq_none] at h1
      show uw107check (.company d) = ⟨false, 0⟩
      simp [uw107check, numTruthy, h1]
  · rcases a with d | d
    · rfl
    · have h1 := habs "previousClaimsCount" (by simp)
      simp only [uwFieldAbsent, compFieldAbsent, Option.isNone_iff_eq_none] at h1
      show uw108check (.company d) = ⟨false, 0⟩
      simp [uw108check, numTruthy, h1]
  · rcases a with d | d
    · rfl
    · have h1 := habs "hasSafetyCertifications" (by simp)
      simp only [uwFieldAbsent, compFieldAbsent, Option.isNone_iff_eq_none] at h1
      show uw109check (.company d) = ⟨false, 0⟩
      simp [uw109check, boolTruthy, h1]
  · rcases a with d | d
    · rfl
    · have h1 := habs "hasRiskManagementProgram" (by simp)
      simp only [uwFieldAbsent, compFieldAbsent, Option.isNone_iff_eq_none] at h1
      show uw110check (.company d) = ⟨false, 0⟩
      simp [uw110check, boolTruthy, h1]
  · rcases a with d | d
    · rfl
    · have h1 := habs "yearsInBusiness" (by simp)
      simp only [uwFieldAbsent, compFieldAbsent, Option.isNone_iff_eq_none] at h1
      show uw111check (.company d) = ⟨false, 0⟩
      simp [uw111check, numTruthy, h1]
  · rcases a with d | d
    · rfl
    · have h1 := habs "industry" (by simp)
      have h2 : uwFieldAbsent (UWApp.company d) "industry" = false := rfl
      rw [h2] at h1
      cases h1

/-- C3 (as amended): for every rule of the fraud and underwriting tables
other than FR006 (Missing Provider NPI) and FR011 (Missing Contact
Information) — the two rules deliberately designed to trigger on missing
data — an input in which every field the rule inspects (its impactedFields)
is absent makes the predicate return {triggered: false, confidence: 0}. -/
theorem claim3_missing_never_triggers_amended :
    (∀ r ∈ fraudRules, r.code ≠ "FR006" → r.code ≠ "FR011" →
      ∀ d : ClaimData, (∀ f ∈ r.impactedFields, fraudFieldAbsent d f = true) →
        r.check d = ⟨false, 0⟩) ∧
    (∀ r ∈ underwritingRules, ∀ a : UWApp,
      (∀ f ∈ r.impactedFields, uwFieldAbsent a f = true) → r.check a = ⟨false, 0⟩) :=
  ⟨fun r hr h6 h11 d habs => fraud_missing_no_trigger r hr h6 h11 d habs,
   fun r hr a habs => uw_missing_no_trigger r hr a habs⟩

/-- C3 counterexample: rule FR006 is in the fraud table, its only impacted
field providerNPI is absent from the given input, yet the predicate returns
{triggered: true, confidence: 60}; likewise FR004 triggers on an input in
which its impacted field treatmentDate is absent (via the claim-date
branch).  Missing data does trigger these rules, refuting the claim as
stated. -/
theorem claim3_missing_never_triggers_cex :
    ((⟨"FR006", .info, 10, ["providerNPI"], fr006check⟩ : FraudRule) ∈ fraudRules ∧
      fraudFieldAbsent { providerName := some "City General Hospital" } "providerNPI" = true ∧
      fr006check { providerName := some "City General Hospital" } = ⟨true, 60⟩) ∧
    ((⟨"FR004", .critical, 35, ["incidentDate", "treatmentDate", "claimDate"],
        fr004check⟩ : FraudRule) ∈ fraudRules ∧
      fraudFieldAbsent { incidentDate := some "2024-11-28", claimDate := some "2024-11-20" }
        "treatmentDate" = true ∧
      fr004check { incidentDate := some "2024-11-28", claimDate := some "2024-11-20" } =
        ⟨true, 95⟩) := by
  refine ⟨⟨?_, by decide, by decide⟩, ⟨?_, by decide, by decide⟩⟩
  · simp [fraudRules]
  · simp [fraudRules]

theorem claim3_missing_never_triggers_witness :
    fr001check {} = ⟨false, 0⟩ ∧ uw001check (.individual {}) = ⟨false, 0⟩ :=
  ⟨claim3_missing_never_triggers_amended.1
      ⟨"FR001", .critical, 25, ["claimantName", "policyHolderName"], fr001check⟩
      (List.mem_cons_self _ _) (by decide) (by decide) {} (by decide),
    claim3_missing_never_triggers_amended.2
      ⟨"UW001", .warning, .risk, 15, [.individual], ["age"], uw001check⟩
      (List.mem_cons_self _ _) (.individual {}) (by decide)⟩

/-- C10: a numeric field whose value is 0 is treated like an absent field by
the falsy check of FR002: on any input with policyLimit = 0 the rule never
triggers, regardless of claimAmount, and its result is identical to the
result on the same input with policyLimit removed. -/
theorem claim10_policy_limit_zero (d : ClaimData) (h : d.policyLimit = some 0) :
    fr002check d = ⟨false, 0⟩ ∧
    fr002check d = fr002check { d with policyLimit := none } := by
  have h2 : fr002check d = ⟨false, 0⟩ := by simp [fr002check, numTruthy, h]
  have h3 : fr002check { d with policyLimit := none } = ⟨false, 0⟩ := by
    simp [fr002check, numTruthy]
  exact ⟨h2, h2.trans h3.symm⟩

theorem claim10_policy_limit_zero_witness :
    fr002check { claimAmount := some 1000000000, policyLimit := some 0 } = ⟨false, 0⟩ :=
  (claim10_policy_limit_zero { claimAmount := some 1000000000, policyLimit := some 0 } rfl).1

theorem filter_length_pos_iff {α : Type} (l : List α) (p : α → Bool) :
    0 < (l.filter p).length ↔ ∃ x ∈ l, p x = true := by
  rw [List.length_pos, Ne, List.filter_eq_nil_iff]
  push_neg
  simp

theorem evaluateRule_fail_all (r : Rule) (fields : List ExtractedField)
    (ha : r.action = .fail) (hl : r.logic = .all)
    (hm : ∀ c ∈ r.conditions, (evaluateCondition c fields).matched = true) :
    (evaluateRule r fields).passed = false := by
  simp only [evaluateRule, hl, ha]
  have hall : (r.conditions.map (fun c => evaluateCondition c fields)).all
      (fun c => c.matched) = true := by
    rw [List.all_eq_true]
    intro x hx
    obtain ⟨c, hc, rfl⟩ := List.mem_map.mp hx
    exact hm c hc
  simp [hall]

/-- C5: evaluateClaim returns verdict pending exactly when the rule list is
empty; on a nonempty rule list the verdict is fail exactly when some rule
evaluates to passed = false and pass exactly when every rule passes; and a
rule with action = fail and logic = all whose every condition matches
evaluates to passed = false. -/
theorem claim5_verdict (fields : List ExtractedField) (rules : List Rule) :
    ((evaluateClaim fields rules).verdict = .pending ↔ rules = []) ∧
    (rules ≠ [] →
      (((evaluateClaim fields rules).verdict = .fail ↔
          ∃ r ∈ rules, (evaluateRule r fields).passed = false) ∧
        ((evaluateClaim fields rules).verdict = .pass ↔
          ∀ r ∈ rules, (evaluateRule r fields).passed = true))) ∧
    (∀ r : Rule, r.action = .fail → r.logic = .all →
      (∀ c ∈ r.conditions, (evaluateCondition c fields).matched = true) →
      (evaluateRule r fields).passed = false) := by
  refine ⟨?_, ?_, fun r => evaluateRule_fail_all r fields⟩
  · by_cases h : rules.isEmpty
    · simp [evaluateClaim, h, List.isEmpty_iff.mp h]
    · have hne : rules ≠ [] := by simpa [List.isEmpty_iff] using h
      simp only [evaluateClaim, h, Bool.false_eq_true, if_false]
      constructor
      · intro hv
        split at hv <;> cases hv
      · intro h0
        exact absurd h0 hne
  · intro hne
    have h : rules.isEmpty = false := by simpa [List.isEmpty_iff] using hne
    simp only [evaluateClaim, h, Bool.false_eq_true, if_false]
    have hkey : 0 < (((rules.map (fun r => evaluateRule r fields)).filter
        (fun r => !r.passed)).map (fun r => r.ruleName)).length ↔
        ∃ r ∈ rules, (evaluateRule r fields).passed = false := by
      rw [List.length_map, filter_length_pos_iff]
      simp
    by_cases hP : ∃ r ∈ rules, (evaluateRule r fields).passed = false
    · rw [if_pos (hkey.mpr hP)]
      have hnall : ¬∀ r ∈ rules, (evaluateRule r fields).passed = true := by
        intro hall
        obtain ⟨r, hr, hf⟩ := hP
        rw [hall r hr] at hf
        cases hf
      simp [hP, hnall]
    · rw [if_neg (fun hc => hP (hkey.mp hc))]
      have hall : ∀ r ∈ rules, (evaluateRule r fields).passed = true := by
        intro r hr
        by_contra hf
        exact hP ⟨r, hr, by simpa using hf⟩
      exact ⟨by simp [hP], iff_of_true rfl hall⟩

theorem claim5_verdict_witness :
    (evaluateClaim [⟨"f1", "Amount", "200", .high, false⟩] []).verdict = .pending ∧
    (evaluateClaim [⟨"f1", "Amount", "200", .high, false⟩]
      [⟨"r1", "R1", "", [⟨"Amount", .greaterThan, "100"⟩], .all, .fail, true⟩]).verdict =
      .fail :=
  ⟨(claim5_verdict [⟨"f1", "Amount", "200", .high, false⟩] []).1.mpr rfl,
    ((claim5_verdict [⟨"f1", "Amount", "200", .high, false⟩]
        [⟨"r1", "R1", "", [⟨"Amount", .greaterThan, "100"⟩], .all, .fail, true⟩]).2.1
        (by simp)).1.mpr
      ⟨⟨"r1", "R1", "", [⟨"Amount", .greaterThan, "100"⟩], .all, .fail, true⟩,
        List.mem_singleton.mpr rfl,
        by simp +decide [evaluateRule, evaluateCondition, findField, jsToLower,
          parseNumericValue, jsParseFloat, stripPunct, jsTrim, isWsChar, digitsVal,
          digitVal]⟩⟩

/-- C7: a condition whose referenced field has no case-insensitive match in
the input record evaluates to non-matched with actualValue rendered "N/A",
for every operator (the early return precedes the operator dispatch). -/
theorem claim7_absent_field (c : RuleCondition) (fields : List ExtractedField)
    (h : findField fields c.field = none) :
    evaluateCondition c fields = ⟨false, "N/A"⟩ := by
  unfold evaluateCondition
  rw [h]

theorem claim7_absent_field_witness :
    evaluateCondition ⟨"Claim Amount", .notEquals, "100"⟩ [] = ⟨false, "N/A"⟩ ∧
    evaluateCondition ⟨"Claim Amount", .notContains, "x"⟩
      [⟨"f1", "Other Field", "value", .high, false⟩] = ⟨false, "N/A"⟩ :=
  ⟨claim7_absent_field _ _ rfl, claim7_absent_field _ _ (by decide)⟩

/-- C6: for each of the six numeric comparison operators, evaluateCondition
first parses both operands numerically (after stripping commas, currency and
percent signs inside parseNumericValue), compares numerically when both
parses succeed, and otherwise falls back to a string comparison —
lexicographic for the order operators, case-insensitive equality for
equals/notEquals — while echoing the field value as actualValue. -/
theorem claim6_numeric_fallback (c : RuleCondition) (fields : List ExtractedField)
    (fld : ExtractedField) (hf : findField fields c.field = some fld)
    (hop : c.operator ∈ numericOps) :
    evaluateCondition c fields =
      ⟨match parseNumericValue fld.value, parseNumericValue c.value with
        | some x, some y => numCompare c.operator x y
        | _, _ => strCompare c.operator fld.value c.value,
        fld.value⟩ := by
  rcases c with ⟨f, op, v⟩
  unfold evaluateCondition
  rw [hf]
  dsimp only
  rcases op
  case contains => simp [numericOps] at hop
  case notContains => simp [numericOps] at hop
  all_goals
    cases h1 : parseNumericValue fld.value <;>
    cases h2 : parseNumericValue v <;>
    simp only [h1, h2] <;>
    rfl

theorem claim6_numeric_fallback_witness :
    evaluateCondition ⟨"Amount", .greaterThan, "100"⟩
      [⟨"f1", "Amount", "abc", .high, false⟩] = ⟨true, "abc"⟩ := by
  have h := claim6_numeric_fallback ⟨"Amount", .greaterThan, "100"⟩
    [⟨"f1", "Amount", "abc", .high, false⟩] ⟨"f1", "Amount", "abc", .high, false⟩
    (by decide) (by decide)
  rw [h]
  simp +decide [parseNumericValue, jsParseFloat, stripPunct, jsTrim, isWsChar,
    digitsVal, digitVal, strCompare, jsStrLt, charsLt]

/-- C8 counterexample: an individual applicant with age = 0 (falsy in JS).
The code leaves the age factor at 1.0 and computes a base premium of 500 on
a coverage of 100000, while the claim's banded formula (age < 30 gives 0.7)
yields 350. -/
theorem claim8_premium_cex :
    calculateBasePremium (.individual { fullName := "A", age := some 0, requestedCoverageAmount := 100000, coverageType := "term" }) = 500 ∧
    claimC8BasePremium (.individual { fullName := "A", age := some 0, requestedCoverageAmount := 100000, coverageType := "term" }) = 350 ∧
    (500 : ℤ) ≠ 350 := by
  refine ⟨?_, ?_, by norm_num⟩
  · simp only [calculateBasePremium, numTruthy, jsRound]
    norm_num
  · simp only [claimC8BasePremium, claimC8VariantFactor, coverageOf, jsRound]
    norm_num

/-- C8 (as amended): basePremium = round(requestedCoverageAmount * 0.005 *
variantFactor), where the individual age band applies only to a defined and
nonzero age — an undefined OR zero age (both falsy in JS) gives factor 1.0 —
and for companies variantFactor = 0.8 * max(1, employeeCount/50) with factor
0.8 when employeeCount is undefined or zero; recommendedPremium =
round(basePremium * (1 + clampedAdjustment/100)). -/
theorem claim8_premium_formulas (a : UWApp) :
    (analyzeUnderwriting a).basePremium =
      jsRound (coverageOf a * (5/1000) * amendedVariantFactor a) ∧
    (analyzeUnderwriting a).recommendedPremium =
      jsRound (((analyzeUnderwriting a).basePremium : ℚ) *
        (1 + ((analyzeUnderwriting a).adjustmentPercentage : ℚ) / 100)) := by
  constructor
  · show calculateBasePremium a = _
    rcases a with d | d
    · rcases hA : d.age with _ | x
      · simp [calculateBasePremium, amendedVariantFactor, coverageOf, numTruthy, hA]
      · by_cases hx : x = 0
        · simp [calculateBasePremium, amendedVariantFactor, coverageOf, numTruthy, hA, hx]
        · simp [calculateBasePremium, amendedVariantFactor, coverageOf, numTruthy, hA, hx]
    · rcases hE : d.employeeCount with _ | e
      · simp [calculateBasePremium, amendedVariantFactor, coverageOf, numTruthy, hE]
      · by_cases he : e = 0
        · simp [calculateBasePremium, amendedVariantFactor, coverageOf, numTruthy, hE, he]
        · simp [calculateBasePremium, amendedVariantFactor, coverageOf, numTruthy, hE, he]
          congr 1
          ring
  · rfl

theorem valid_results_comm (apps : List (Option UWApp)) :
    (apps.map (fun o => o.map analyzeUnderwriting)).filterMap id =
    (apps.filterMap id).map analyzeUnderwriting := by
  induction apps with
  | nil => rfl
  | cons h t ih => cases h <;> simp [ih]

/-- C4 counterexample: the fraud bulk endpoint validates the batch wholesale,
so one malformed record (the `none`) aborts the entire request with a 400
error, and an all-invalid batch is also rejected rather than summarised with
zero counts; the underwriting endpoint, in contrast, silently discards the
malformed record. -/
theorem claim4_bulk_cex :
    fraudAnalyzeBulk [some {}, none] = .error "Invalid claims data" ∧
    fraudAnalyzeBulk [none] = .error "Invalid claims data" ∧
    underwritingAnalyzeBulk [none] = .ok ⟨0, ⟨0, 0, 0, 0, 0, 0, 0⟩, []⟩ := by
  refine ⟨?_, ?_, rfl⟩ <;> rfl

/-- C4 (as amended): the underwriting bulk endpoint discards each record that
fails schema validation silently and per-record (the response is computed
from the valid records alone, in order), and an all-invalid nonempty batch
yields zero per-tier counts and averages of 0 rather than NaN or an error;
the fraud bulk endpoint instead validates the batch wholesale and rejects
the entire request with an error as soon as any record is invalid. -/
theorem claim4_bulk_behaviour :
    (∀ apps : List (Option UWApp), apps ≠ [] →
      underwritingAnalyzeBulk apps =
        .ok ⟨((apps.filterMap id).map analyzeUnderwriting).length,
          uwBulkSummaryOf ((apps.filterMap id).map analyzeUnderwriting),
          (apps.filterMap id).map analyzeUnderwriting⟩) ∧
    (∀ apps : List (Option UWApp), apps ≠ [] → (∀ x ∈ apps, x = none) →
      underwritingAnalyzeBulk apps = .ok ⟨0, ⟨0, 0, 0, 0, 0, 0, 0⟩, []⟩) ∧
    (∀ claims : List (Option ClaimData), none ∈ claims →
      fraudAnalyzeBulk claims = .error "Invalid claims data") := by
  have hmain : ∀ apps : List (Option UWApp), apps ≠ [] →
      underwritingAnalyzeBulk apps =
        .ok ⟨((apps.filterMap id).map analyzeUnderwriting).length,
          uwBulkSummaryOf ((apps.filterMap id).map analyzeUnderwriting),
          (apps.filterMap id).map analyzeUnderwriting⟩ := by
    intro apps hne
    have h : apps.isEmpty = false := by simpa [List.isEmpty_iff] using hne
    simp only [underwritingAnalyzeBulk, h, Bool.false_eq_true, if_false]
    rw [valid_results_comm]
  refine ⟨hmain, ?_, ?_⟩
  · intro apps hne hall
    have hnil : apps.filterMap id = [] := by
      rw [List.filterMap_eq_nil_iff]
      intro a ha
      rw [hall a ha]
      rfl
    rw [hmain apps hne, hnil]
    rfl
  · intro claims hmem
    have hany : claims.any (fun c => c.isNone) = true :=
      List.any_eq_true.mpr ⟨none, hmem, rfl⟩
    simp only [fraudAnalyzeBulk, hany]
    simp

theorem claim4_bulk_behaviour_witness :
    underwritingAnalyzeBulk [some (.individual { fullName := "A", coverageType := "term" }), none] =
      .ok ⟨1, uwBulkSummaryOf [analyzeUnderwriting (.individual { fullName := "A", coverageType := "term" })],
        [analyzeUnderwriting (.individual { fullName := "A", coverageType := "term" })]⟩ ∧
    underwritingAnalyzeBulk [none, none] = .ok ⟨0, ⟨0, 0, 0, 0, 0, 0, 0⟩, []⟩ ∧
    fraudAnalyzeBulk [some {}, some { claimAmount := some 100 }, none] =
      .error "Invalid claims data" := by
  refine ⟨?_, ?_, ?_⟩
  · rw [claim4_bulk_behaviour.1 _ (by simp)]
    rfl
  · exact claim4_bulk_behaviour.2.1 _ (by simp) (by simp)
  · exact claim4_bulk_behaviour.2.2 _ (by simp)

theorem ruleScore_le_of_untrig {r : FraudRule} {d e : ClaimData}
    (h : (r.check d).triggered = false) (hb : 0 ≤ r.baseScore)
    (hc : 0 ≤ (r.check e).confidence) : ruleScore r d ≤ ruleScore r e := by
  have h0 : ruleScore r d = 0 := by simp [ruleScore, h]
  rw [h0]
  exact ruleScore_nonneg r e hb hc

theorem bool_not_true {b : Bool} (h : ¬b = true) : b = false := by
  cases b <;> simp_all

theorem fr006_no_new (d e : ClaimData) (ht : (fr006check e).triggered = true)
    (hpn : e.providerName = d.providerName) (hnpi : d.providerNPI = none) :
    (fr006check d).triggered = true := by
  simp only [fr006check] at ht ⊢
  split at ht
  case isFalse => cases ht
  case isTrue hc =>
    rw [hpn] at hc
    simp only [Bool.and_eq_true] at hc
    simp [hnpi, hc.1, show strTruthy (none : Option String) = false from rfl]

theorem fr011_no_new (d e : ClaimData) (ht : (fr011check e).triggered = true)
    (hp : (if strTruthy e.claimantPhone then (0 : ℕ) else 1) ≤
      (if strTruthy d.claimantPhone then 0 else 1))
    (hm : (if strTruthy e.claimantEmail then (0 : ℕ) else 1) ≤
      (if strTruthy d.claimantEmail then 0 else 1))
    (ha : (if strTruthy e.claimantAddress then (0 : ℕ) else 1) ≤
      (if strTruthy d.claimantAddress then 0 else 1)) :
    (fr011check d).triggered = true := by
  simp only [fr011check] at ht ⊢
  by_cases hcond : ((if strTruthy e.claimantPhone then (0 : ℕ) else 1) +
      (if strTruthy e.claimantEmail then 0 else 1) +
      (if strTruthy e.claimantAddress then 0 else 1)) ≥ 2
  · have hd : ((if strTruthy d.claimantPhone then (0 : ℕ) else 1) +
        (if strTruthy d.claimantEmail then 0 else 1) +
        (if strTruthy d.claimantAddress then 0 else 1)) ≥ 2 := by omega
    rw [if_pos hd]
  · rw [if_neg hcond] at ht
    cases ht

theorem fr004_treat_mono (d : ClaimData) (v : String) (hn : d.treatmentDate = none) :
    ruleScore ⟨"FR004", .critical, 35, ["incidentDate", "treatmentDate", "claimDate"], fr004check⟩ d ≤
    ruleScore ⟨"FR004", .critical, 35, ["incidentDate", "treatmentDate", "claimDate"], fr004check⟩
      { d with treatmentDate := some v } := by
  by_cases hi : strTruthy d.incidentDate = true
  · by_cases hc : (strTruthy d.claimDate &&
        dateLt (optParse d.claimDate) (optParse d.incidentDate)) = true
    · have hnt : strTruthy d.treatmentDate = false := by rw [hn]; rfl
      have hd4 : fr004check d = ⟨true, 95⟩ := by
        simp [fr004check, hi, hnt, hc]
      have he4 : fr004check { d with treatmentDate := some v } = ⟨true, 95⟩ := by
        simp [fr004check, hi, hc, ite_self]
      simp [ruleScore, hd4, he4]
    · have hnt : strTruthy d.treatmentDate = false := by rw [hn]; rfl
      have h0 : (fr004check d).triggered = false := by
        simp [fr004check, hi, hnt, bool_not_true hc]
      exact ruleScore_le_of_untrig h0 (by norm_num) (conf_nonneg_fr004 _)
  · have h0 : (fr004check d).triggered = false := by
      simp [fr004check, bool_not_true hi]
    exact ruleScore_le_of_untrig h0 (by norm_num) (conf_nonneg_fr004 _)

theorem fr004_claim_mono (d : ClaimData) (v : String) (hn : d.claimDate = none) :
    ruleScore ⟨"FR004", .critical, 35, ["incidentDate", "treatmentDate", "claimDate"], fr004check⟩ d ≤
    ruleScore ⟨"FR004", .critical, 35, ["incidentDate", "treatmentDate", "claimDate"], fr004check⟩
      { d with claimDate := some v } := by
  by_cases hi : strTruthy d.incidentDate = true
  · by_cases ht : (strTruthy d.treatmentDate &&
        dateLt (optParse d.treatmentDate) (optParse d.incidentDate)) = true
    · have hd4 : fr004check d = ⟨true, 95⟩ := by
        simp [fr004check, hi, ht]
      have he4 : fr004check { d with claimDate := some v } = ⟨true, 95⟩ := by
        simp [fr004check, hi, ht]
      simp [ruleScore, hd4, he4]
    · have hnc : strTruthy d.claimDate = false := by rw [hn]; rfl
      have h0 : (fr004check d).triggered = false := by
        simp [fr004check, hi, bool_not_true ht, hnc]
      exact ruleScore_le_of_untrig h0 (by norm_num) (conf_nonneg_fr004 _)
  · have h0 : (fr004check d).triggered = false := by
      simp [fr004check, bool_not_true hi]
    exact ruleScore_le_of_untrig h0 (by norm_num) (conf_nonneg_fr004 _)

set_option maxHeartbeats 1600000 in
/-- C9: for every fraud claim input, supplying a value for one
previously-absent field in a way that causes at least one additional
(positive-weight) rule to trigger never decreases the overall fraud score.
All twelve fraud rules carry positive base scores; the only field additions
that can un-trigger a rule (providerNPI, and the contact fields of FR011)
never cause a new rule to trigger, so the hypothesis rules them out there. -/
theorem claim9_monotone_add_field (d e : ClaimData) (hadd : addsOneField d e)
    (hnew : ∃ r ∈ fraudRules, (r.check e).triggered = true ∧ (r.check d).triggered = false) :
    (analyzeFraud d).overallScore ≤ (analyzeFraud e).overallScore := by
  rcases hadd with ⟨hn, v, rfl⟩ | ⟨hn, v, rfl⟩ | ⟨hn, v, rfl⟩ | ⟨hn, v, rfl⟩ | ⟨hn, v, rfl⟩ | ⟨hn, v, rfl⟩ | ⟨hn, v, rfl⟩ | ⟨hn, v, rfl⟩ | ⟨hn, v, rfl⟩ | ⟨hn, v, rfl⟩ | ⟨hn, v, rfl⟩ | ⟨hn, v, rfl⟩ | ⟨hn, v, rfl⟩ | ⟨hn, v, rfl⟩ | ⟨hn, v, rfl⟩ | ⟨hn, v, rfl⟩ | ⟨hn, v, rfl⟩ | ⟨hn, v, rfl⟩ | ⟨hn, v, rfl⟩ | ⟨hn, v, rfl⟩
  · have key : totalScore d ≤ totalScore { d with claimantName := some v } := by
      unfold totalScore
      apply List.sum_le_sum
      intro r hr
      simp only [fraudRules, List.mem_cons, List.not_mem_nil, or_false] at hr
      rcases hr with rfl | rfl | rfl | rfl | rfl | rfl | rfl | rfl | rfl | rfl | rfl | rfl
      · exact ruleScore_le_of_untrig (by simp [fr001check, strTruthy, hn]) (by norm_num) (conf_nonneg_fr001 _)
      · exact le_of_eq rfl
      · exact le_of_eq rfl
      · exact le_of_eq rfl
      · exact le_of_eq rfl
      · exact le_of_eq rfl
      · exact le_of_eq rfl
      · exact le_of_eq rfl
      · exact le_of_eq rfl
      · exact le_of_eq rfl
      · exact le_of_eq rfl
      · exact le_of_eq rfl
    exact min_le_min le_rfl key
  · have key : totalScore d ≤ totalScore { d with policyNumber := some v } := by
      unfold totalScore
      apply List.sum_le_sum
      intro r hr
      simp only [fraudRules, List.mem_cons, List.not_mem_nil, or_false] at hr
      rcases hr with rfl | rfl | rfl | rfl | rfl | rfl | rfl | rfl | rfl | rfl | rfl | rfl
      · exact le_of_eq rfl
      · exact le_of_eq rfl
      · exact le_of_eq rfl
      · exact le_of_eq rfl
      · exact le_of_eq rfl
      · exact le_of_eq rfl
      · exact le_of_eq rfl
      · exact le_of_eq rfl
      · exact le_of_eq rfl
      · exact le_of_eq rfl
      · exact le_of_eq rfl
      · exact le_of_eq rfl
    exact min_le_min le_rfl key
  · have key : totalScore d ≤ totalScore { d with claimNumber := some v } := by
      unfold totalScore
      apply List.sum_le_sum
      intro r hr
      simp only [fraudRules, List.mem_cons, List.not_mem_nil, or_false] at hr
      rcases hr with rfl | rfl | rfl | rfl | rfl | rfl | rfl | rfl | rfl | rfl | rfl | rfl
      · exact le_of_eq rfl
      · exact le_of_eq rfl
      · exact le_of_eq rfl
      · exact le_of_eq rfl
      · exact le_of_eq rfl
      · exact le_of_eq rfl
      · exact le_of_eq rfl
      · exact le_of_eq rfl
      · exact le_of_eq rfl
      · exact le_of_eq rfl
      · exact le_of_eq rfl
      · exact le_of_eq rfl
    exact min_le_min le_rfl key
  · have key : totalScore d ≤ totalScore { d with claimDate := some v } := by
      unfold totalScore
      apply List.sum_le_sum
      intro r hr
      simp only [fraudRules, List.mem_cons, List.not_mem_nil, or_false] at hr
      rcases hr with rfl | rfl | rfl | rfl | rfl | rfl | rfl | rfl | rfl | rfl | rfl | rfl
      · exact le_of_eq rfl
      · exact le_of_eq rfl
      · exact le_of_eq rfl
      · exact fr004_claim_mono d v hn
      · exact le_of_eq rfl
      · exact le_of_eq rfl
      · exact le_of_eq rfl
      · exact le_of_eq rfl
      · exact le_of_eq rfl
      · exact le_of_eq rfl
      · exact le_of_eq rfl
      · exact ruleScore_le_of_untrig (by simp [fr012check, strTruthy, hn]) (by norm_num) (conf_nonneg_fr012 _)
    exact min_le_min le_rfl key
  · have key : totalScore d ≤ totalScore { d with claimAmount := some v } := by
      unfold totalScore
      apply List.sum_le_sum
      intro r hr
      simp only [fraudRules, List.mem_cons, List.not_mem_nil, or_false] at hr
      rcases hr with rfl | rfl | rfl | rfl | rfl | rfl | rfl | rfl | rfl | rfl | rfl | rfl
      · exact le_of_eq rfl
      · exact ruleScore_le_of_untrig (by simp [fr002check, numTruthy, hn]) (by norm_num) (conf_nonneg_fr002 _)
      · exact le_of_eq rfl
      · exact le_of_eq rfl
      · exact le_of_eq rfl
      · exact le_of_eq rfl
      · exact ruleScore_le_of_untrig (by simp [fr007check, numTruthy, hn]) (by norm_num) (conf_nonneg_fr007 _)
      · exact le_of_eq rfl
      · exact le_of_eq rfl
      · exact ruleScore_le_of_untrig (by simp [fr010check, numTruthy, hn]) (by norm_num) (conf_nonneg_fr010 _)
      · exact le_of_eq rfl
      · exact le_of_eq rfl
    exact min_le_min le_rfl key
  · have key : totalScore d ≤ totalScore { d with incidentDate := some v } := by
      unfold totalScore
      apply List.sum_le_sum
      intro r hr
      simp only [fraudRules, List.mem_cons, List.not_mem_nil, or_false] at hr
      rcases hr with rfl | rfl | rfl | rfl | rfl | rfl | rfl | rfl | rfl | rfl | rfl | rfl
      · exact le_of_eq rfl
      · exact le_of_eq rfl
      · exact le_of_eq rfl
      · exact ruleScore_le_of_untrig (by simp [fr004check, strTruthy, hn]) (by norm_num) (conf_nonneg_fr004 _)
      · exact le_of_eq rfl
      · exact le_of_eq rfl
      · exact le_of_eq rfl
      · exact ruleScore_le_of_untrig (by simp [fr008check, strTruthy, hn]) (by norm_num) (conf_nonneg_fr008 _)
      · exact le_of_eq rfl
      · exact le_of_eq rfl
      · exact le_of_eq rfl
      · exact ruleScore_le_of_untrig (by simp [fr012check, strTruthy, hn]) (by norm_num) (conf_nonneg_fr012 _)
    exact min_le_min le_rfl key
  · have key : totalScore d ≤ totalScore { d with incidentDescription := some v } := by
      unfold totalScore
      apply List.sum_le_sum
      intro r hr
      simp only [fraudRules, List.mem_cons, List.not_mem_nil, or_false] at hr
      rcases hr with rfl | rfl | rfl | rfl | rfl | rfl | rfl | rfl | rfl | rfl | rfl | rfl
      · exact le_of_eq rfl
      · exact le_of_eq rfl
      · exact le_of_eq rfl
      · exact le_of_eq rfl
      · exact le_of_eq rfl
      · exact le_of_eq rfl
      · exact le_of_eq rfl
      · exact le_of_eq rfl
      · exact ruleScore_le_of_untrig (by simp [fr009check, strTruthy, hn]) (by norm_num) (conf_nonneg_fr009 _)
      · exact le_of_eq rfl
      · exact le_of_eq rfl
      · exact le_of_eq rfl
    exact min_le_min le_rfl key
  · have key : totalScore d ≤ totalScore { d with incidentLocation := some v } := by
      unfold totalScore
      apply List.sum_le_sum
      intro r hr
      simp only [fraudRules, List.mem_cons, List.not_mem_nil, or_false] at hr
      rcases hr with rfl | rfl | rfl | rfl | rfl | rfl | rfl | rfl | rfl | rfl | rfl | rfl
      · exact le_of_eq rfl
      · exact le_of_eq rfl
      · exact le_of_eq rfl
      · exact le_of_eq rfl
      · exact le_of_eq rfl
      · exact le_of_eq rfl
      · exact le_of_eq rfl
      · exact le_of_eq rfl
      · exact le_of_eq rfl
      · exact le_of_eq rfl
      · exact le_of_eq rfl
      · exact le_of_eq rfl
    exact min_le_min le_rfl key
  · have key : totalScore d ≤ totalScore { d with treatmentDate := some v } := by
      unfold totalScore
      apply List.sum_le_sum
      intro r hr
      simp only [fraudRules, List.mem_cons, List.not_mem_nil, or_false] at hr
      rcases hr with rfl | rfl | rfl | rfl | rfl | rfl | rfl | rfl | rfl | rfl | rfl | rfl
      · exact le_of_eq rfl
      · exact le_of_eq rfl
      · exact le_of_eq rfl
      · exact fr004_treat_mono d v hn
      · exact le_of_eq rfl
      · exact le_of_eq rfl
      · exact le_of_eq rfl
      · exact ruleScore_le_of_untrig (by simp [fr008check, strTruthy, hn]) (by norm_num) (conf_nonneg_fr008 _)
      · exact le_of_eq rfl
      · exact le_of_eq rfl
      · exact le_of_eq rfl
      · exact le_of_eq rfl
    exact min_le_min le_rfl key
  · have key : totalScore d ≤ totalScore { d with providerName := some v } := by
      unfold totalScore
      apply List.sum_le_sum
      intro r hr
      simp only [fraudRules, List.mem_cons, List.not_mem_nil, or_false] at hr
      rcases hr with rfl | rfl | rfl | rfl | rfl | rfl | rfl | rfl | rfl | rfl | rfl | rfl
      · exact le_of_eq rfl
      · exact le_of_eq rfl
      · exact le_of_eq rfl
      · exact le_of_eq rfl
      · exact ruleScore_le_of_untrig (by simp [fr005check, strTruthy, hn]) (by norm_num) (conf_nonneg_fr005 _)
      · exact ruleScore_le_of_untrig (by simp [fr006check, strTruthy, hn]) (by norm_num) (conf_nonneg_fr006 _)
      · exact le_of_eq rfl
      · exact le_of_eq rfl
      · exact le_of_eq rfl
      · exact le_of_eq rfl
      · exact le_of_eq rfl
      · exact le_of_eq rfl
    exact min_le_min le_rfl key
  · exfalso
    obtain ⟨r, hr, hte, htd⟩ := hnew
    simp only [fraudRules, List.mem_cons, List.not_mem_nil, or_false] at hr
    rcases hr with rfl | rfl | rfl | rfl | rfl | rfl | rfl | rfl | rfl | rfl | rfl | rfl
    · exact Bool.false_ne_true (htd.symm.trans hte)
    · exact Bool.false_ne_true (htd.symm.trans hte)
    · exact Bool.false_ne_true (htd.symm.trans hte)
    · exact Bool.false_ne_true (htd.symm.trans hte)
    · exact Bool.false_ne_true (htd.symm.trans hte)
    · exact Bool.false_ne_true (htd.symm.trans (fr006_no_new d _ hte rfl hn))
    · exact Bool.false_ne_true (htd.symm.trans hte)
    · exact Bool.false_ne_true (htd.symm.trans hte)
    · exact Bool.false_ne_true (htd.symm.trans hte)
    · exact Bool.false_ne_true (htd.symm.trans hte)
    · exact Bool.false_ne_true (htd.symm.trans hte)
    · exact Bool.false_ne_true (htd.symm.trans hte)
  · have key : totalScore d ≤ totalScore { d with diagnosisCode := some v } := by
      unfold totalScore
      apply List.sum_le_sum
      intro r hr
      simp only [fraudRules, List.mem_cons, List.not_mem_nil, or_false] at hr
      rcases hr with rfl | rfl | rfl | rfl | rfl | rfl | rfl | rfl | rfl | rfl | rfl | rfl
      · exact le_of_eq rfl
      · exact le_of_eq rfl
      · exact le_of_eq rfl
      · exact le_of_eq rfl
      · exact le_of_eq rfl
      · exact le_of_eq rfl
      · exact le_of_eq rfl
      · exact le_of_eq rfl
      · exact le_of_eq rfl
      · exact le_of_eq rfl
      · exact le_of_eq rfl
      · exact le_of_eq rfl
    exact min_le_min le_rfl key
  · exfalso
    obtain ⟨r, hr, hte, htd⟩ := hnew
    simp only [fraudRules, List.mem_cons, List.not_mem_nil, or_false] at hr
    rcases hr with rfl | rfl | rfl | rfl | rfl | rfl | rfl | rfl | rfl | rfl | rfl | rfl
    · exact Bool.false_ne_true (htd.symm.trans hte)
    · exact Bool.false_ne_true (htd.symm.trans hte)
    · exact Bool.false_ne_true (htd.symm.trans hte)
    · exact Bool.false_ne_true (htd.symm.trans hte)
    · exact Bool.false_ne_true (htd.symm.trans hte)
    · exact Bool.false_ne_true (htd.symm.trans hte)
    · exact Bool.false_ne_true (htd.symm.trans hte)
    · exact Bool.false_ne_true (htd.symm.trans hte)
    · exact Bool.false_ne_true (htd.symm.trans hte)
    · exact Bool.false_ne_true (htd.symm.trans hte)
    · exact Bool.false_ne_true (htd.symm.trans (fr011_no_new d _ hte (le_refl _) (le_refl _) (by rw [hn]; split <;> simp [strTruthy])))
    · exact Bool.false_ne_true (htd.symm.trans hte)
  · exfalso
    obtain ⟨r, hr, hte, htd⟩ := hnew
    simp only [fraudRules, List.mem_cons, List.not_mem_nil, or_false] at hr
    rcases hr with rfl | rfl | rfl | rfl | rfl | rfl | rfl | rfl | rfl | rfl | rfl | rfl
    · exact Bool.false_ne_true (htd.symm.trans hte)
    · exact Bool.false_ne_true (htd.symm.trans hte)
    · exact Bool.false_ne_true (htd.symm.trans hte)
    · exact Bool.false_ne_true (htd.symm.trans hte)
    · exact Bool.false_ne_true (htd.symm.trans hte)
    · exact Bool.false_ne_true (htd.symm.trans hte)
    · exact Bool.false_ne_true (htd.symm.trans hte)
    · exact Bool.false_ne_true (htd.symm.trans hte)
    · exact Bool.false_ne_true (htd.symm.trans hte)
    · exact Bool.false_ne_true (htd.symm.trans hte)
    · exact Bool.false_ne_true (htd.symm.trans (fr011_no_new d _ hte (by rw [hn]; split <;> simp [strTruthy]) (le_refl _) (le_refl _)))
    · exact Bool.false_ne_true (htd.symm.trans hte)
  · exfalso
    obtain ⟨r, hr, hte, htd⟩ := hnew
    simp only [fraudRules, List.mem_cons, List.not_mem_nil, or_false] at hr
    rcases hr with rfl | rfl | rfl | rfl | rfl | rfl | rfl | rfl | rfl | rfl | rfl | rfl
    · exact Bool.false_ne_true (htd.symm.trans hte)
    · exact Bool.false_ne_true (htd.symm.trans hte)
    · exact Bool.false_ne_true (htd.symm.trans hte)
    · exact Bool.false_ne_true (htd.symm.trans hte)
    · exact Bool.false_ne_true (htd.symm.trans hte)
    · exact Bool.false_ne_true (htd.symm.trans hte)
    · exact Bool.false_ne_true (htd.symm.trans hte)
    · exact Bool.false_ne_true (htd.symm.trans hte)
    · exact Bool.false_ne_true (htd.symm.trans hte)
    · exact Bool.false_ne_true (htd.symm.trans hte)
    · exact Bool.false_ne_true (htd.symm.trans (fr011_no_new d _ hte (le_refl _) (by rw [hn]; split <;> simp [strTruthy]) (le_refl _)))
    · exact Bool.false_ne_true (htd.symm.trans hte)
  · have key : totalScore d ≤ totalScore { d with vehicleInfo := some v } := by
      unfold totalScore
      apply List.sum_le_sum
      intro r hr
      simp only [fraudRules, List.mem_cons, List.not_mem_nil, or_false] at hr
      rcases hr with rfl | rfl | rfl | rfl | rfl | rfl | rfl | rfl | rfl | rfl | rfl | rfl
      · exact le_of_eq rfl
      · exact le_of_eq rfl
      · exact le_of_eq rfl
      · exact le_of_eq rfl
      · exact le_of_eq rfl
      · exact le_of_eq rfl
      · exact le_of_eq rfl
      · exact le_of_eq rfl
      · exact le_of_eq rfl
      · exact le_of_eq rfl
      · exact le_of_eq rfl
      · exact le_of_eq rfl
    exact min_le_min le_rfl key
  · have key : totalScore d ≤ totalScore { d with policyHolderName := some v } := by
      unfold totalScore
      apply List.sum_le_sum
      intro r hr
      simp only [fraudRules, List.mem_cons, List.not_mem_nil, or_false] at hr
      rcases hr with rfl | rfl | rfl | rfl | rfl | rfl | rfl | rfl | rfl | rfl | rfl | rfl
      · exact ruleScore_le_of_untrig (by simp [fr001check, strTruthy, hn]) (by norm_num) (conf_nonneg_fr001 _)
      · exact le_of_eq rfl
      · exact le_of_eq rfl
      · exact le_of_eq rfl
      · exact le_of_eq rfl
      · exact le_of_eq rfl
      · exact le_of_eq rfl
      · exact le_of_eq rfl
      · exact le_of_eq rfl
      · exact le_of_eq rfl
      · exact le_of_eq rfl
      · exact le_of_eq rfl
    exact min_le_min le_rfl key
  · have key : totalScore d ≤ totalScore { d with policyLimit := some v } := by
      unfold totalScore
      apply List.sum_le_sum
      intro r hr
      simp only [fraudRules, List.mem_cons, List.not_mem_nil, or_false] at hr
      rcases hr with rfl | rfl | rfl | rfl | rfl | rfl | rfl | rfl | rfl | rfl | rfl | rfl
      · exact le_of_eq rfl
      · exact ruleScore_le_of_untrig (by simp [fr002check, numTruthy, hn]) (by norm_num) (conf_nonneg_fr002 _)
      · exact le_of_eq rfl
      · exact le_of_eq rfl
      · exact le_of_eq rfl
      · exact le_of_eq rfl
      · exact le_of_eq rfl
      · exact le_of_eq rfl
      · exact le_of_eq rfl
      · exact le_of_eq rfl
      · exact le_of_eq rfl
      · exact le_of_eq rfl
    exact min_le_min le_rfl key
  · have key : totalScore d ≤ totalScore { d with previousClaimsCount := some v } := by
      unfold totalScore
      apply List.sum_le_sum
      intro r hr
      simp only [fraudRules, List.mem_cons, List.not_mem_nil, or_false] at hr
      rcases hr with rfl | rfl | rfl | rfl | rfl | rfl | rfl | rfl | rfl | rfl | rfl | rfl
      · exact le_of_eq rfl
      · exact le_of_eq rfl
      · exact ruleScore_le_of_untrig (by simp [fr003check, hn]) (by norm_num) (conf_nonneg_fr003 _)
      · exact le_of_eq rfl
      · exact le_of_eq rfl
      · exact le_of_eq rfl
      · exact le_of_eq rfl
      · exact le_of_eq rfl
      · exact le_of_eq rfl
      · exact le_of_eq rfl
      · exact le_of_eq rfl
      · exact le_of_eq rfl
    exact min_le_min le_rfl key
  · have key : totalScore d ≤ totalScore { d with daysSinceLastClaim := some v } := by
      unfold totalScore
      apply List.sum_le_sum
      intro r hr
      simp only [fraudRules, List.mem_cons, List.not_mem_nil, or_false] at hr
      rcases hr with rfl | rfl | rfl | rfl | rfl | rfl | rfl | rfl | rfl | rfl | rfl | rfl
      · exact le_of_eq rfl
      · exact le_of_eq rfl
      · exact ruleScore_le_of_untrig (by simp [fr003check, hn]) (by norm_num) (conf_nonneg_fr003 _)
      · exact le_of_eq rfl
      · exact le_of_eq rfl
      · exact le_of_eq rfl
      · exact le_of_eq rfl
      · exact le_of_eq rfl
      · exact le_of_eq rfl
      · exact le_of_eq rfl
      · exact le_of_eq rfl
      · exact le_of_eq rfl
    exact min_le_min le_rfl key

theorem claim9_monotone_add_field_witness :
    (analyzeFraud {}).overallScore ≤
      (analyzeFraud { claimAmount := some 60000 }).overallScore :=
  claim9_monotone_add_field {} { claimAmount := some 60000 }
    (Or.inr (Or.inr (Or.inr (Or.inr (Or.inl ⟨rfl, 60000, rfl⟩)))))
    ⟨⟨"FR007", .warning, 15, ["claimAmount"], fr007check⟩, by simp [fraudRules],
      by decide, by decide⟩
